import Mathlib

/-!
Verification development for the JRDB data parser
(`cloud_functions/gcs_to_bq/parser.py`).

The Python module is shallowly embedded: every Python function used by the
properties under study is translated to an executable Lean definition.
Conventions of the embedding:

* Python strings are Lean `String` (both are sequences of unicode code
  points, so `len`/slicing agree character by character).
* Python `None` / optional values are `Option`.
* Python floats are modelled as exact rationals `ℚ`; the only float
  arithmetic performed by the parser is division of a decoded integer by
  `10.0`, which is exact.
* A Python function that may raise is modelled with `Except`/`Option`;
  a caught exception becomes the corresponding error value.
* `datetime.utcnow().isoformat()` is modelled by passing the two stamped
  strings (`created`, `updated`) as explicit parameters: the decoders use
  them only for the two audit fields.
-/

set_option maxRecDepth 40000

/-- Unicode whitespace characters stripped by Python `str.strip()` that can
occur in this data (ASCII whitespace and the ideographic space U+3000). -/
def pySpace (c : Char) : Bool :=
  c = ' ' ∨ c = '\t' ∨ c = '\n' ∨ c = '\x0d' ∨ c = '\x0b' ∨ c = '\x0c' ∨ c = '　'

/-- Python `s.strip()`: remove leading and trailing whitespace. -/
def pyStrip (s : String) : String :=
  ⟨(((s.data.dropWhile pySpace).reverse.dropWhile pySpace).reverse : List Char)⟩

/-- Python slice `s[a:b]` (for `0 ≤ a ≤ b`; out-of-range indices clamp). -/
def pySlice (s : String) (a b : Nat) : String :=
  ⟨((s.data.take b).drop a : List Char)⟩

/-- Python slice `s[a:]`. -/
def pySliceFrom (s : String) (a : Nat) : String :=
  ⟨(s.data.drop a : List Char)⟩

/-- Python `s.upper()` (ASCII data only in this parser). -/
def pyUpper (s : String) : String :=
  ⟨(s.data.map Char.toUpper : List Char)⟩

/-- Python `s.replace(c, '')` for a one-character pattern: remove every
occurrence of the character. -/
def pyRemoveChar (c : Char) (s : String) : String :=
  ⟨(s.data.filter (fun a => a ≠ c) : List Char)⟩

/-- Python `content.split(sep)` for a one-character separator, on the
character list. `split` always yields at least one (possibly empty) piece. -/
def pySplitCharList (sep : Char) : List Char → List (List Char)
  | [] => [[]]
  | a :: rest =>
    let r := pySplitCharList sep rest
    if a = sep then [] :: r
    else
      match r with
      | h :: t => (a :: h) :: t
      | [] => [[a]]

/-- Python `content.split('\n')`, as a list of strings. -/
def pySplitNL (s : String) : List String :=
  (pySplitCharList '\n' s.data).map (fun l => (⟨l⟩ : String))

/-- Numeric value of a digit character. -/
def digVal (c : Char) : Nat := c.toNat - 48

/-- After an initial digit: the remainder of a Python digit run, where an
underscore must be followed by a digit (CPython grouping rule). -/
def usTail : List Char → Bool
  | [] => true
  | '_' :: [] => false
  | '_' :: d :: rest => d.isDigit && usTail (d :: rest)
  | d :: rest => d.isDigit && usTail rest

/-- A nonempty Python digit run: digits with optional single underscores
between digits (as accepted by CPython `int()`/`float()` literals). -/
def digitRunOk : List Char → Bool
  | [] => false
  | d :: rest => d.isDigit && usTail rest

/-- Value of a digit run, ignoring grouping underscores. -/
def digitsVal (l : List Char) : Nat :=
  (l.filter Char.isDigit).foldl (fun a c => 10 * a + digVal c) 0

/-- Number of digits in a digit run (underscores not counted). -/
def digitsCnt (l : List Char) : Nat :=
  (l.filter Char.isDigit).length

/-- Model of CPython `int(s)` for ASCII decimal literals: strip whitespace,
optional sign, then a digit run. Returns `none` where `int()` raises
`ValueError`. -/
def pyInt (s : String) : Option Int :=
  match (pyStrip s).data with
  | '+' :: rest => if digitRunOk rest then some (Int.ofNat (digitsVal rest)) else none
  | '-' :: rest => if digitRunOk rest then some (-(Int.ofNat (digitsVal rest))) else none
  | l => if digitRunOk l then some (Int.ofNat (digitsVal l)) else none

/-- Empty or a valid digit run (integer / fraction part of a float literal
may each be empty, but not both). -/
def emptyOrRun (l : List Char) : Bool :=
  l.isEmpty || digitRunOk l

/-- Mantissa of a Python float literal, split at the decimal point; returns
`(value scaled to an integer, number of fractional digits)`. -/
def pyFloatMantissa (l : List Char) : Option (Nat × Nat) :=
  let ip := l.takeWhile (fun c => c ≠ '.')
  let rest := l.dropWhile (fun c => c ≠ '.')
  let fp := rest.drop 1
  if emptyOrRun ip && emptyOrRun fp && !(ip.isEmpty && fp.isEmpty) &&
      (rest.isEmpty || rest.take 1 = ['.']) then
    some (digitsVal ip * 10 ^ digitsCnt fp + digitsVal fp, digitsCnt fp)
  else none

/-- Exponent of a Python float literal (after the `e`): optional sign and a
digit run. -/
def pyFloatExp (l : List Char) : Option Int :=
  match l with
  | '+' :: rest => if digitRunOk rest then some (Int.ofNat (digitsVal rest)) else none
  | '-' :: rest => if digitRunOk rest then some (-(Int.ofNat (digitsVal rest))) else none
  | _ => if digitRunOk l then some (Int.ofNat (digitsVal l)) else none

/-- Unsigned part of a Python float literal: mantissa and optional
`e`/`E` exponent. -/
def pyFloatBody (l : List Char) : Option ℚ :=
  let mant := l.takeWhile (fun c => c ≠ 'e' ∧ c ≠ 'E')
  let rest := l.dropWhile (fun c => c ≠ 'e' ∧ c ≠ 'E')
  match pyFloatMantissa mant with
  | none => none
  | some (m, f) =>
    if rest.isEmpty then some ((m : ℚ) / 10 ^ f)
    else
      match pyFloatExp (rest.drop 1) with
      | some e => some ((m : ℚ) * (10 : ℚ) ^ (e - (f : Int)))
      | none => none

/-- Model of CPython `float(s)` for finite decimal literals (sign, digits,
decimal point, exponent, underscore grouping). The special literals
`inf`/`infinity`/`nan` do not occur in this data and are not modelled; the
value is the exact rational denoted by the literal. Returns `none` where
`float()` raises `ValueError`. -/
def pyFloat (s : String) : Option ℚ :=
  match (pyStrip s).data with
  | '+' :: rest => pyFloatBody rest
  | '-' :: rest => (pyFloatBody rest).map (fun q => -q)
  | l => pyFloatBody l

/-- Python truthiness of an optional integer (`if x:`):
`None` and `0` are falsy. -/
def pyTruthyInt (v : Option Int) : Bool :=
  match v with
  | none => false
  | some n => n ≠ 0

/-- Python truthiness of a string (`s if s else None`). -/
def strOpt (s : String) : Option String :=
  if s = "" then none else some s

/-- Python `str(x)` for an optional integer as interpolated by an f-string
(`None` prints as the text None). -/
def pyStrOfOptInt (v : Option Int) : String :=
  match v with
  | none => "None"
  | some n => toString n

/-- `JRDBParser.safe_int`: strip, return `default` on empty, return the
parsed integer, or `default` where `int()` raises (the `try`/`except`
swallows `ValueError`). Total by construction: it never raises. -/
def safe_int (value : String) (default : Option Int) : Option Int :=
  let cleaned := pyStrip value
  if cleaned = "" then default
  else
    match pyInt cleaned with
    | some n => some n
    | none => default

/-- `JRDBParser.safe_float`: strip, return `default` on empty, return the
parsed float, or `default` where `float()` raises. Total by construction. -/
def safe_float (value : String) (default : Option ℚ) : Option ℚ :=
  let cleaned := pyStrip value
  if cleaned = "" then default
  else
    match pyFloat cleaned with
    | some q => some q
    | none => default

/-- Gregorian leap year (as used by `datetime`). -/
def isLeap (y : Nat) : Bool :=
  (y % 4 = 0 ∧ y % 100 ≠ 0) ∨ y % 400 = 0

/-- Days in a month of the proleptic Gregorian calendar. -/
def daysInMonth (y m : Nat) : Nat :=
  if m = 2 then (if isLeap y then 29 else 28)
  else if m = 4 ∨ m = 6 ∨ m = 9 ∨ m = 11 then 30
  else 31

/-- Model of `datetime.strptime(t, "%Y%m%d")` on the already-stripped
text: the compiled pattern is the anchored regex
`(\d\x7b1,4\x7d)(\d\x7b1,2\x7d)(\d\x7b1,2\x7d)`, whose first
(greedy, backtracking) match on an all-digit string of length `3..8`
takes `min 4 (L-2)` digits of year and `min 2 (L - yl - 1)` of month;
the date is then validated (`datetime` years run from 1 to 9999). -/
def strptimeYmd (t : String) : Option (Nat × Nat × Nat) :=
  let cs := t.data
  if cs.all Char.isDigit ∧ 3 ≤ cs.length ∧ cs.length ≤ 8 then
    let yl := min 4 (cs.length - 2)
    let ml := min 2 (cs.length - yl - 1)
    let y := digitsVal (cs.take yl)
    let m := digitsVal ((cs.drop yl).take ml)
    let d := digitsVal (cs.drop (yl + ml))
    if 1 ≤ y ∧ 1 ≤ m ∧ m ≤ 12 ∧ 1 ≤ d ∧ d ≤ daysInMonth y m then
      some (y, m, d)
    else none
  else none

/-- Zero-padded two-digit decimal rendering (`%m`, `%d`). -/
def pad2 (n : Nat) : String :=
  (if n < 10 then "0" else "") ++ Nat.repr n

/-- Four-digit decimal rendering for `%Y` (every date accepted by the
decoder has a year in `1..9999`; years below 1000 cannot arise from the
8-character date slices this parser feeds in). -/
def pad4 (n : Nat) : String :=
  (if n < 10 then "000" else if n < 100 then "00" else if n < 1000 then "0" else "") ++ Nat.repr n

/-- `JRDBParser.parse_date`: strip, parse `YYYYMMDD` via `strptime`, and
re-render as ISO `YYYY-MM-DD`; any failure is caught and becomes `None`. -/
def parse_date (date_str : String) : Option String :=
  if pyStrip date_str = "" then none
  else
    match strptimeYmd (pyStrip date_str) with
    | some (y, m, d) => some (pad4 y ++ "-" ++ pad2 m ++ "-" ++ pad2 d)
    | none => none

/-- `JRDBParser.VENUE_CODE_MAP`. -/
def VENUE_CODE_MAP : List (String × String) :=
  [("01", "札幌"), ("02", "函館"), ("03", "福島"), ("04", "新潟"), ("05", "東京"),
   ("06", "中山"), ("07", "中京"), ("08", "京都"), ("09", "阪神"), ("10", "小倉")]

/-- `JRDBParser.COURSE_TYPE_MAP`. -/
def COURSE_TYPE_MAP : List (String × String) :=
  [("1", "turf"), ("2", "dirt"), ("3", "obstacle")]

/-- `JRDBParser.TRACK_CONDITION_MAP`. -/
def TRACK_CONDITION_MAP : List (String × String) :=
  [("10", "良"), ("11", "速良"), ("12", "遅良"),
   ("20", "稍重"), ("21", "速稍重"), ("22", "遅稍重"),
   ("30", "重"), ("31", "速重"), ("32", "遅重"),
   ("40", "不良"), ("41", "速不良"), ("42", "遅不良"),
   ("1", "良"), ("2", "稍重"), ("3", "重"), ("4", "不良")]

/-- `JRDBParser.WEATHER_MAP`. -/
def WEATHER_MAP : List (String × String) :=
  [("1", "晴"), ("2", "曇"), ("3", "小雨"), ("4", "雨"), ("5", "小雪"), ("6", "雪")]

/-- `JRDBParser.SEX_CODE_MAP`. -/
def SEX_CODE_MAP : List (String × String) :=
  [("1", "牡"), ("2", "牝"), ("3", "セン")]

/-- Result of `JRDBParser.parse_race_id`. -/
structure RaceInfo where
  race_id : String
  venue_code : String
  year : Int
  kai : Int
  day : Int
  race_number : Int
deriving DecidableEq

/-- `JRDBParser.parse_race_id`: reject keys whose length is not 8 with a
`ValueError`, decode the four numeric sub-fields with `int()` (each raises
`ValueError` on unparseable text — the four raise points are collapsed
into one error branch, which is equivalent for raise-versus-return), and
widen the 2-digit year: `0..50` to `2000+y`, otherwise `1900+y`. -/
def parse_race_id (race_key : String) : Except String RaceInfo :=
  if race_key.length ≠ 8 then
    Except.error ("Invalid race key length: " ++ race_key)
  else
    match pyInt (pySlice race_key 2 4), pyInt (pySlice race_key 4 5),
          pyInt (pySlice race_key 5 6), pyInt (pySlice race_key 6 8) with
    | some year, some kai, some day, some race_num =>
      Except.ok
        { race_id := race_key
          venue_code := pySlice race_key 0 2
          year := if 0 ≤ year ∧ year ≤ 50 then year + 2000 else year + 1900
          kai := kai
          day := day
          race_number := race_num }
    | _, _, _, _ => Except.error ("invalid literal for int() with base 10")

/-- All characters are non-digits (the anchored `[^\d]*$` part of the
head-count regex). -/
def allNonDigit (l : List Char) : Bool :=
  l.all (fun c => !c.isDigit)

/-- Second group of the head-count regex `(\d\x7b1,2\x7d)` followed by
`[^\d]*$`: greedily two digits, backtracking to one. -/
def g2try : List Char → Bool
  | a :: b :: rest =>
    (a.isDigit && b.isDigit && allNonDigit rest) || (a.isDigit && allNonDigit (b :: rest))
  | [a] => a.isDigit
  | [] => false

/-- Optional single space `[ ]?` (greedy) before the second group. -/
def optSpaceG2 : List Char → Bool
  | ' ' :: rest => g2try rest || g2try (' ' :: rest)
  | l => g2try l

/-- Match of the head-count regex
`(\d\x7b1,2\x7d)[ ]?(\d\x7b1,2\x7d)(?:[^\d]*)$` anchored at the start of
`l`, returning the first group's text under the regex backtracking order
(first group greedy). -/
def matchNumAt : List Char → Option (List Char)
  | a :: b :: rest =>
    if a.isDigit && b.isDigit && optSpaceG2 rest then some [a, b]
    else if a.isDigit && optSpaceG2 (b :: rest) then some [a]
    else none
  | _ => none

/-- `re.search` of the head-count regex: leftmost position with a match. -/
def searchNum : List Char → Option (List Char)
  | [] => none
  | a :: rest =>
    match matchNumAt (a :: rest) with
    | some g => some g
    | none => searchNum rest

/-- Record produced by `JRDBParser.parse_baa_line` (the BAA/BAB/BAC
race-program decoder); field order follows the Python dict literal. -/
structure BaaRecord where
  race_id : String
  race_date : Option String
  venue_code : String
  venue_name : String
  race_number : Int
  race_name : String
  course_type : Option String
  distance : Option Int
  direction : String
  race_class : String
  age_condition : String
  sex_condition : String
  weather : Option String
  track_condition : Option String
  num_horses : Option Int
  prize_1st : Option Int
  prize_2nd : Option Int
  prize_3rd : Option Int
  created_at : String
  updated_at : String
deriving DecidableEq

/-!
Each local of the Python `parse_baa_line` becomes a top-level function
`baa_<name>` of the line (`baa_race_id` is the local `race_key`;
`baa_symbol` is the local `symbol`, stored as `sex_condition`). The
locals `start_time`, `inner_outer` and `weight_type` are computed by the
Python code but never stored and have no effect, so they get no function.
-/

def baa_race_id (line : String) : String :=
  pyStrip (pySlice line 0 8)

def baa_race_date (line : String) : Option String :=
  parse_date (pySlice line 8 16)

def baa_distance (line : String) : Option Int :=
  safe_int (pySlice line 20 24) none

def baa_course_type (line : String) : Option String :=
  COURSE_TYPE_MAP.lookup (pySlice line 24 25)

def baa_direction (line : String) : String :=
  if pySlice line 25 26 = "1" then "right"
  else if pySlice line 25 26 = "2" then "left"
  else "straight"

def baa_age_condition (line : String) : String :=
  pyStrip (pySlice line 27 29)

def baa_race_condition (line : String) : String :=
  pyStrip (pySlice line 29 31)

def baa_symbol (line : String) : String :=
  pyStrip (pySlice line 31 34)

def baa_grade_code (line : String) : String :=
  pyStrip (pySlice line 35 36)

/-- The grade-code-then-condition-fallback chain assigning `race_class`. -/
def baa_race_class (line : String) : String :=
  if baa_grade_code line = "1" then "G1"
  else if baa_grade_code line = "2" then "G2"
  else if baa_grade_code line = "3" then "G3"
  else if baa_grade_code line = "5" then "Listed"
  else if baa_race_condition line = "OP" then "Open"
  else baa_race_condition line

def baa_race_name (line : String) : String :=
  if line.length > 86 then pyStrip (pySlice line 36 86)
  else pyStrip (pySliceFrom line 36)

/-- `num_horses`: regex search over the stripped tail from position 80. -/
def baa_num_horses (line : String) : Option Int :=
  if line.length > 80 then
    match searchNum (pyStrip (pySliceFrom line 80)).data with
    | some g1 => safe_int (⟨g1⟩ : String) none
    | none => none
  else none

/-- `JRDBParser.parse_baa_line`. The only operations inside the `try`
block that can raise are those of `parse_race_id`; a raise is caught and
becomes `none`, as is the short-line early return. -/
def parse_baa_line (created updated : String) (line : String) : Option BaaRecord :=
  if line.length < 90 then none
  else
    match parse_race_id (baa_race_id line) with
    | Except.error _ => none
    | Except.ok race_info =>
      some ⟨
        baa_race_id line, -- race_id
        baa_race_date line, -- race_date
        race_info.venue_code, -- venue_code
        (VENUE_CODE_MAP.lookup race_info.venue_code).getD "", -- venue_name
        race_info.race_number, -- race_number
        baa_race_name line, -- race_name
        baa_course_type line, -- course_type
        baa_distance line, -- distance
        baa_direction line, -- direction
        baa_race_class line, -- race_class
        baa_age_condition line, -- age_condition
        baa_symbol line, -- sex_condition
        none, -- weather
        none, -- track_condition
        baa_num_horses line, -- num_horses
        none, -- prize_1st
        none, -- prize_2nd
        none, -- prize_3rd
        created, -- created_at
        updated -- updated_at
      ⟩

/-- A well-formed 90-character BAA test line (spec §7 scenario: venue 06,
year 26, meeting 1, day 1, race 01). -/
def testBaaLine : String :=
  "06261101" ++ "20260101" ++ "1000" ++ "1600" ++ "1" ++ "1" ++ " " ++ "03" ++
    "OP" ++ "   " ++ "1" ++ " " ++
    "                                                  " ++ "  16"

/-- The tenths-scaling idiom `raw / 10.0 if raw else None` used for weight
carried, finish times and time gaps: `None` and `0` (both falsy) give
`None`; any other integer is divided by `10.0` (exact, modelled in `ℚ`). -/
def pyTenths (v : Option Int) : Option ℚ :=
  match v with
  | some n => if n ≠ 0 then some ((n : ℚ) / 10) else none
  | none => none

/-- Record produced by `JRDBParser.parse_kyf_line` (KYF/KYG/KYH horse-entry
decoder); field order follows the Python dict literal. Fields that the
decoder always sets to `None` (placeholders for schema uniformity) are
typed `Option Int`; their element type is immaterial since they are
constantly `none`. -/
structure KyfRecord where
  race_id : String
  horse_number : Option Int
  horse_id : String
  horse_name : String
  idm : Option ℚ
  jockey_index : Option ℚ
  info_index : Option ℚ
  total_index : Option ℚ
  running_style : Option Int
  distance_aptitude : Option Int
  improvement : Option Int
  rotation : Option Int
  base_odds : Option ℚ
  base_popularity : Option Int
  base_place_odds : Option ℚ
  base_place_popularity : Option Int
  specific_mark_circle : Option Int
  specific_mark_circle2 : Option Int
  specific_mark_triangle : Option Int
  specific_mark_triangle2 : Option Int
  specific_mark_x : Option Int
  total_mark_circle : Option Int
  total_mark_circle2 : Option Int
  total_mark_triangle : Option Int
  total_mark_triangle2 : Option Int
  total_mark_x : Option Int
  popularity_index : Option Int
  training_index : Option ℚ
  stable_index : Option ℚ
  training_arrow_code : Option Int
  stable_eval_code : Option Int
  jockey_expected_win_rate : Option ℚ
  surge_index : Option Int
  hoof_code : Option Int
  heavy_aptitude_code : Option Int
  class_code : Option Int
  blinker : Option String
  jockey_name : Option String
  weight_carried : Option ℚ
  apprentice_class : Option Int
  trainer_name : Option String
  trainer_affiliation : Option String
  prev_race_key_1 : Option String
  prev_race_key_2 : Option String
  prev_race_key_3 : Option String
  prev_race_key_4 : Option String
  prev_race_key_5 : Option String
  bracket_number : Option Int
  overall_mark : Option Int
  idm_mark : Option Int
  info_mark : Option Int
  jockey_mark : Option Int
  stable_mark : Option Int
  training_mark : Option Int
  surge_mark : Option Int
  turf_aptitude : Option String
  dirt_aptitude : Option String
  jockey_code : Option String
  trainer_code : Option String
  prize_money : Option Int
  earned_prize : Option Int
  condition_class : Option Int
  ten_index : Option ℚ
  pace_index : Option ℚ
  agari_index : Option ℚ
  position_index : Option ℚ
  pace_forecast : Option String
  mid_position : Option Int
  mid_gap : Option Int
  mid_inside_outside : Option Int
  last_3f_position : Option Int
  last_3f_gap : Option Int
  last_3f_inside_outside : Option Int
  goal_position : Option Int
  goal_gap : Option Int
  goal_inside_outside : Option Int
  development_code : Option String
  distance_aptitude_2 : Option Int
  confirmed_weight : Option Int
  confirmed_weight_diff : Option Int
  cancel_flag : Option Int
  sex_code : Option Int
  owner_name : Option String
  owner_club_code : Option Int
  horse_symbol_code : Option Int
  surge_rank : Option Int
  ls_index_rank : Option Int
  ten_index_rank : Option Int
  pace_index_rank : Option Int
  agari_index_rank : Option Int
  position_index_rank : Option Int
  jockey_expected_win_single : Option Int
  jockey_expected_top3 : Option Int
  transport_class : Option Int
  running_form : Option Int
  body_type : Option Int
  body_total_1 : Option Int
  body_total_2 : Option Int
  body_total_3 : Option Int
  horse_note_1 : Option Int
  horse_note_2 : Option Int
  horse_note_3 : Option Int
  start_index : Option Int
  late_start_rate : Option Int
  reference_prev_race : Option Int
  reference_jockey_code : Option Int
  big_ticket_index : Option Int
  big_ticket_mark : Option Int
  demotion_flag : Option Int
  surge_type : Option Int
  rest_reason_code : Option Int
  flags : Option Int
  stable_entry_race_count : Option Int
  stable_entry_date : Option Int
  stable_entry_days_before : Option Int
  pasture : Option Int
  pasture_rank : Option Int
  stable_rank : Option Int
  created_at : String
  updated_at : String
deriving DecidableEq

/-!
Each local variable of the Python function `parse_kyf_line` is embedded as
a top-level function `kyf_<name>` of the line (the Python assignments are
straight-line and independent), and the decoder assembles the record from
them. `kyf_race_id` is the local `race_key`.
-/

def kyf_race_id (line : String) : String :=
  pyStrip (pySlice line 0 8)

def kyf_horse_number (line : String) : Option Int :=
  safe_int (pySlice line 8 10) none

def kyf_horse_id (line : String) : String :=
  pyStrip (pySlice line 10 18)

def kyf_horse_name (line : String) : String :=
  pyStrip (pyRemoveChar '　' (pyStrip (pySlice line 18 36)))

def kyf_idm (line : String) : Option ℚ :=
  safe_float (pySlice line 36 41) none

def kyf_jockey_index (line : String) : Option ℚ :=
  safe_float (pySlice line 41 46) none

def kyf_info_index (line : String) : Option ℚ :=
  safe_float (pySlice line 46 51) none

def kyf_total_index (line : String) : Option ℚ :=
  safe_float (pySlice line 67 72) none

def kyf_running_style (line : String) : Option Int :=
  safe_int (pySlice line 73 74) none

def kyf_distance_aptitude (line : String) : Option Int :=
  safe_int (pySlice line 76 77) none

def kyf_base_odds (line : String) : Option ℚ :=
  safe_float (pySlice line 78 83) none

def kyf_base_popularity (line : String) : Option Int :=
  safe_int (pySlice line 83 85) none

def kyf_base_place_odds (line : String) : Option ℚ :=
  safe_float (pySlice line 86 91) none

def kyf_base_place_popularity (line : String) : Option Int :=
  safe_int (pySlice line 89 91) none

def kyf_specific_mark_circle (line : String) : Option Int :=
  if line.length > 94 then safe_int (pySlice line 93 94) none else none

def kyf_specific_mark_circle2 (line : String) : Option Int :=
  if line.length > 95 then safe_int (pySlice line 94 95) none else none

def kyf_specific_mark_triangle (line : String) : Option Int :=
  if line.length > 96 then safe_int (pySlice line 95 96) none else none

def kyf_specific_mark_triangle2 (line : String) : Option Int :=
  if line.length > 97 then safe_int (pySlice line 96 97) none else none

def kyf_specific_mark_x (line : String) : Option Int :=
  if line.length > 98 then safe_int (pySlice line 97 98) none else none

def kyf_total_mark_circle (line : String) : Option Int :=
  if line.length > 99 then safe_int (pySlice line 98 99) none else none

def kyf_total_mark_circle2 (line : String) : Option Int :=
  if line.length > 100 then safe_int (pySlice line 99 100) none else none

def kyf_total_mark_triangle (line : String) : Option Int :=
  if line.length > 101 then safe_int (pySlice line 100 101) none else none

def kyf_total_mark_triangle2 (line : String) : Option Int :=
  if line.length > 102 then safe_int (pySlice line 101 102) none else none

def kyf_total_mark_x (line : String) : Option Int :=
  if line.length > 103 then safe_int (pySlice line 102 103) none else none

def kyf_popularity_index (line : String) : Option Int :=
  if line.length > 106 then safe_int (pySlice line 103 106) none else none

def kyf_training_index (line : String) : Option ℚ :=
  if line.length > 111 then safe_float (pySlice line 106 111) none else none

def kyf_stable_index (line : String) : Option ℚ :=
  if line.length > 116 then safe_float (pySlice line 111 116) none else none

def kyf_training_arrow_code (line : String) : Option Int :=
  if line.length > 117 then safe_int (pySlice line 116 117) none else none

def kyf_stable_eval_code (line : String) : Option Int :=
  if line.length > 118 then safe_int (pySlice line 117 118) none else none

def kyf_jockey_expected_win_rate (line : String) : Option ℚ :=
  if line.length > 123 then safe_float (pySlice line 118 123) none else none

def kyf_surge_index (line : String) : Option Int :=
  if line.length > 126 then safe_int (pySlice line 123 126) none else none

def kyf_hoof_code (line : String) : Option Int :=
  if line.length > 128 then safe_int (pySlice line 126 128) none else none

def kyf_heavy_aptitude_code (line : String) : Option Int :=
  if line.length > 129 then safe_int (pySlice line 128 129) none else none

def kyf_class_code (line : String) : Option Int :=
  if line.length > 131 then safe_int (pySlice line 129 131) none else none

def kyf_blinker (line : String) : String :=
  if line.length > 132 then pyStrip (pySlice line 131 132) else ""

def kyf_jockey_name (line : String) : String :=
  if line.length > 159 then pyRemoveChar '　' (pyStrip (pySlice line 153 159)) else ""

def kyf_weight_carried (line : String) : Option ℚ :=
  if line.length > 162 then pyTenths (safe_int (pySlice line 159 162) none) else none

def kyf_apprentice_class (line : String) : Option Int :=
  if line.length > 163 then safe_int (pySlice line 162 163) none else none

def kyf_trainer_name (line : String) : String :=
  if line.length > 169 then pyRemoveChar '　' (pyStrip (pySlice line 163 169)) else ""

def kyf_trainer_affiliation (line : String) : String :=
  if line.length > 171 then pyRemoveChar '　' (pyStrip (pySlice line 169 171)) else ""

def kyf_prev_race_key_1 (line : String) : String :=
  if line.length > 187 then pyStrip (pySlice line 171 187) else ""

def kyf_prev_race_key_2 (line : String) : String :=
  if line.length > 203 then pyStrip (pySlice line 187 203) else ""

def kyf_prev_race_key_3 (line : String) : String :=
  if line.length > 219 then pyStrip (pySlice line 203 219) else ""

def kyf_prev_race_key_4 (line : String) : String :=
  if line.length > 235 then pyStrip (pySlice line 219 235) else ""

def kyf_prev_race_key_5 (line : String) : String :=
  if line.length > 251 then pyStrip (pySlice line 235 251) else ""

def kyf_bracket_number (line : String) : Option Int :=
  if line.length > 252 then safe_int (pySlice line 251 252) none else none

def kyf_overall_mark (line : String) : Option Int :=
  if line.length > 287 then safe_int (pySlice line 286 287) none else none

def kyf_idm_mark (line : String) : Option Int :=
  if line.length > 288 then safe_int (pySlice line 287 288) none else none

def kyf_info_mark (line : String) : Option Int :=
  if line.length > 289 then safe_int (pySlice line 288 289) none else none

def kyf_jockey_mark (line : String) : Option Int :=
  if line.length > 290 then safe_int (pySlice line 289 290) none else none

def kyf_stable_mark (line : String) : Option Int :=
  if line.length > 291 then safe_int (pySlice line 290 291) none else none

def kyf_training_mark (line : String) : Option Int :=
  if line.length > 292 then safe_int (pySlice line 291 292) none else none

def kyf_surge_mark (line : String) : Option Int :=
  if line.length > 293 then safe_int (pySlice line 292 293) none else none

def kyf_turf_aptitude (line : String) : String :=
  if line.length > 294 then pyStrip (pySlice line 293 294) else ""

def kyf_dirt_aptitude (line : String) : String :=
  if line.length > 295 then pyStrip (pySlice line 294 295) else ""

def kyf_jockey_code (line : String) : String :=
  if line.length > 300 then pyStrip (pySlice line 295 300) else ""

def kyf_trainer_code (line : String) : String :=
  if line.length > 305 then pyStrip (pySlice line 300 305) else ""

def kyf_prize_money (line : String) : Option Int :=
  if line.length > 310 then safe_int (pySlice line 305 310) none else none

def kyf_earned_prize (line : String) : Option Int :=
  if line.length > 315 then safe_int (pySlice line 310 315) none else none

def kyf_condition_class (line : String) : Option Int :=
  if line.length > 316 then safe_int (pySlice line 315 316) none else none

def kyf_ten_index (line : String) : Option ℚ :=
  if line.length > 331 then safe_float (pySlice line 326 331) none else none

def kyf_pace_index (line : String) : Option ℚ :=
  if line.length > 336 then safe_float (pySlice line 331 336) none else none

def kyf_agari_index (line : String) : Option ℚ :=
  if line.length > 341 then safe_float (pySlice line 336 341) none else none

def kyf_position_index (line : String) : Option ℚ :=
  if line.length > 346 then safe_float (pySlice line 342 346) none else none

def kyf_pace_forecast (line : String) : String :=
  if line.length > 347 then pyStrip (pySlice line 346 347) else ""

def kyf_mid_position (line : String) : Option Int :=
  if line.length > 350 then safe_int (pySlice line 348 350) none else none

def kyf_mid_gap (line : String) : Option Int :=
  if line.length > 352 then safe_int (pySlice line 350 352) none else none

def kyf_mid_inside_outside (line : String) : Option Int :=
  if line.length > 353 then safe_int (pySlice line 352 353) none else none

def kyf_last_3f_position (line : String) : Option Int :=
  if line.length > 355 then safe_int (pySlice line 353 355) none else none

def kyf_last_3f_gap (line : String) : Option Int :=
  if line.length > 357 then safe_int (pySlice line 355 357) none else none

def kyf_last_3f_inside_outside (line : String) : Option Int :=
  if line.length > 358 then safe_int (pySlice line 357 358) none else none

def kyf_goal_position (line : String) : Option Int :=
  if line.length > 360 then safe_int (pySlice line 358 360) none else none

def kyf_goal_gap (line : String) : Option Int :=
  if line.length > 362 then safe_int (pySlice line 360 362) none else none

def kyf_goal_inside_outside (line : String) : Option Int :=
  if line.length > 363 then safe_int (pySlice line 362 363) none else none

def kyf_development_code (line : String) : String :=
  if line.length > 364 then pyStrip (pySlice line 363 364) else ""

def kyf_confirmed_weight (line : String) : Option Int :=
  if line.length > 376 then safe_int (pySlice line 373 376) none else none

def kyf_confirmed_weight_diff (line : String) : Option Int :=
  if line.length > 379 then safe_int (pySlice line 376 379) none else none

def kyf_sex_code (line : String) : Option Int :=
  if line.length > 364 then safe_int (pySlice line 363 364) none else none

def kyf_owner_name (line : String) : String :=
  if line.length > 399 then pyRemoveChar '　' (pyStrip (pySlice line 379 399)) else ""

/-- `JRDBParser.parse_kyf_line`. No operation in its `try` block can
raise, so the decoder returns `none` exactly on lines shorter than 170
characters. The record is the anonymous constructor in declared field
order; a comment names each field. -/
def parse_kyf_line (created updated : String) (line : String) : Option KyfRecord :=
  if line.length < 170 then none
  else
    some ⟨
      kyf_race_id line, -- race_id
      kyf_horse_number line, -- horse_number
      kyf_horse_id line, -- horse_id
      kyf_horse_name line, -- horse_name
      kyf_idm line, -- idm
      kyf_jockey_index line, -- jockey_index
      kyf_info_index line, -- info_index
      kyf_total_index line, -- total_index
      kyf_running_style line, -- running_style
      kyf_distance_aptitude line, -- distance_aptitude
      none, -- improvement
      none, -- rotation
      kyf_base_odds line, -- base_odds
      kyf_base_popularity line, -- base_popularity
      kyf_base_place_odds line, -- base_place_odds
      kyf_base_place_popularity line, -- base_place_popularity
      kyf_specific_mark_circle line, -- specific_mark_circle
      kyf_specific_mark_circle2 line, -- specific_mark_circle2
      kyf_specific_mark_triangle line, -- specific_mark_triangle
      kyf_specific_mark_triangle2 line, -- specific_mark_triangle2
      kyf_specific_mark_x line, -- specific_mark_x
      kyf_total_mark_circle line, -- total_mark_circle
      kyf_total_mark_circle2 line, -- total_mark_circle2
      kyf_total_mark_triangle line, -- total_mark_triangle
      kyf_total_mark_triangle2 line, -- total_mark_triangle2
      kyf_total_mark_x line, -- total_mark_x
      kyf_popularity_index line, -- popularity_index
      kyf_training_index line, -- training_index
      kyf_stable_index line, -- stable_index
      kyf_training_arrow_code line, -- training_arrow_code
      kyf_stable_eval_code line, -- stable_eval_code
      kyf_jockey_expected_win_rate line, -- jockey_expected_win_rate
      kyf_surge_index line, -- surge_index
      kyf_hoof_code line, -- hoof_code
      kyf_heavy_aptitude_code line, -- heavy_aptitude_code
      kyf_class_code line, -- class_code
      strOpt (kyf_blinker line), -- blinker
      strOpt (kyf_jockey_name line), -- jockey_name
      kyf_weight_carried line, -- weight_carried
      kyf_apprentice_class line, -- apprentice_class
      strOpt (kyf_trainer_name line), -- trainer_name
      strOpt (kyf_trainer_affiliation line), -- trainer_affiliation
      strOpt (kyf_prev_race_key_1 line), -- prev_race_key_1
      strOpt (kyf_prev_race_key_2 line), -- prev_race_key_2
      strOpt (kyf_prev_race_key_3 line), -- prev_race_key_3
      strOpt (kyf_prev_race_key_4 line), -- prev_race_key_4
      strOpt (kyf_prev_race_key_5 line), -- prev_race_key_5
      kyf_bracket_number line, -- bracket_number
      kyf_overall_mark line, -- overall_mark
      kyf_idm_mark line, -- idm_mark
      kyf_info_mark line, -- info_mark
      kyf_jockey_mark line, -- jockey_mark
      kyf_stable_mark line, -- stable_mark
      kyf_training_mark line, -- training_mark
      kyf_surge_mark line, -- surge_mark
      strOpt (kyf_turf_aptitude line), -- turf_aptitude
      strOpt (kyf_dirt_aptitude line), -- dirt_aptitude
      strOpt (kyf_jockey_code line), -- jockey_code
      strOpt (kyf_trainer_code line), -- trainer_code
      kyf_prize_money line, -- prize_money
      kyf_earned_prize line, -- earned_prize
      kyf_condition_class line, -- condition_class
      kyf_ten_index line, -- ten_index
      kyf_pace_index line, -- pace_index
      kyf_agari_index line, -- agari_index
      kyf_position_index line, -- position_index
      strOpt (kyf_pace_forecast line), -- pace_forecast
      kyf_mid_position line, -- mid_position
      kyf_mid_gap line, -- mid_gap
      kyf_mid_inside_outside line, -- mid_inside_outside
      kyf_last_3f_position line, -- last_3f_position
      kyf_last_3f_gap line, -- last_3f_gap
      kyf_last_3f_inside_outside line, -- last_3f_inside_outside
      kyf_goal_position line, -- goal_position
      kyf_goal_gap line, -- goal_gap
      kyf_goal_inside_outside line, -- goal_inside_outside
      strOpt (kyf_development_code line), -- development_code
      none, -- distance_aptitude_2
      kyf_confirmed_weight line, -- confirmed_weight
      kyf_confirmed_weight_diff line, -- confirmed_weight_diff
      none, -- cancel_flag
      kyf_sex_code line, -- sex_code
      strOpt (kyf_owner_name line), -- owner_name
      none, -- owner_club_code
      none, -- horse_symbol_code
      none, -- surge_rank
      none, -- ls_index_rank
      none, -- ten_index_rank
      none, -- pace_index_rank
      none, -- agari_index_rank
      none, -- position_index_rank
      none, -- jockey_expected_win_single
      none, -- jockey_expected_top3
      none, -- transport_class
      none, -- running_form
      none, -- body_type
      none, -- body_total_1
      none, -- body_total_2
      none, -- body_total_3
      none, -- horse_note_1
      none, -- horse_note_2
      none, -- horse_note_3
      none, -- start_index
      none, -- late_start_rate
      none, -- reference_prev_race
      none, -- reference_jockey_code
      none, -- big_ticket_index
      none, -- big_ticket_mark
      none, -- demotion_flag
      none, -- surge_type
      none, -- rest_reason_code
      none, -- flags
      none, -- stable_entry_race_count
      none, -- stable_entry_date
      none, -- stable_entry_days_before
      none, -- pasture
      none, -- pasture_rank
      none, -- stable_rank
      created, -- created_at
      updated -- updated_at
    ⟩

/-- A 171-character KYF test line with weight-carried sub-field 550. -/
def testKyfLine : String :=
  "06261101" ++ "01" ++ "23107385" ++
    "                                                                                                                                             " ++
    "550" ++ "1" ++ "        "

/-- Record produced by `JRDBParser.parse_sec_line` (SEC race-result
decoder); field order follows the Python dict literal. Always-`None`
placeholder fields keep a plausible element type; it is immaterial. -/
structure SecRecord where
  race_id : String
  horse_number : Option Int
  horse_id : String
  race_date : Option String
  horse_name : Option String
  distance : Option Int
  course_type : Option String
  direction : String
  track_condition : Option String
  race_type : Option String
  race_condition : Option String
  grade : Option String
  race_name : Option String
  num_horses : Option Int
  finish_position : Option Int
  abnormal_code : Option Int
  finish_time : Option ℚ
  weight_carried : Option ℚ
  jockey_name : Option String
  trainer_name : Option String
  win_odds : Option ℚ
  win_popularity : Option Int
  idm : Option ℚ
  raw_score : Option ℚ
  track_bias : Option ℚ
  pace : Option ℚ
  late_start : Option ℚ
  position_fault : Option ℚ
  disadvantage : Option ℚ
  front_disadvantage : Option ℚ
  mid_disadvantage : Option ℚ
  back_disadvantage : Option ℚ
  race_score : Option ℚ
  course_position : Option Int
  improvement_code : Option Int
  class_code : Option Int
  body_code : Option Int
  condition_code : Option Int
  race_pace : Option String
  horse_pace : Option String
  ten_index : Option ℚ
  agari_index : Option ℚ
  pace_index : Option ℚ
  race_pace_index : Option ℚ
  winner_name : Option String
  winner_time_diff : Option ℚ
  front_3f_time : Option ℚ
  last_3f_time : Option ℚ
  remarks : Option String
  place_odds : Option ℚ
  odds_10am_win : Option ℚ
  odds_10am_place : Option ℚ
  corner_position_1 : Option Int
  corner_position_2 : Option Int
  corner_position_3 : Option Int
  corner_position_4 : Option Int
  front_3f_lead_diff : Option ℚ
  last_3f_lead_diff : Option ℚ
  jockey_code : Option String
  trainer_code : Option String
  horse_weight : Option Int
  horse_weight_diff : Option Int
  weather_code : Option Int
  course_code : Option String
  race_running_style : Option String
  created_at : String
  updated_at : String
deriving DecidableEq

/-!
Each local of the Python `parse_sec_line` becomes a top-level function
`sec_<name>` of the line (`sec_race_id` is the local `race_key`; the
guarded blocks for positions 260+/270+ keep their length conditions).
-/

def sec_race_id (line : String) : String :=
  pyStrip (pySlice line 0 8)

def sec_horse_number (line : String) : Option Int :=
  safe_int (pySlice line 8 10) none

def sec_horse_id (line : String) : String :=
  pyStrip (pySlice line 10 18)

def sec_race_date (line : String) : Option String :=
  parse_date (pyStrip (pySlice line 18 26))

def sec_horse_name (line : String) : String :=
  pyStrip (pyRemoveChar '　' (pyStrip (pySlice line 26 44)))

def sec_distance (line : String) : Option Int :=
  safe_int (pySlice line 44 48) none

def sec_course_type (line : String) : Option String :=
  COURSE_TYPE_MAP.lookup (pySlice line 48 49)

def sec_direction (line : String) : String :=
  if pySlice line 49 50 = "1" then "right"
  else if pySlice line 49 50 = "2" then "left"
  else "straight"

def sec_track_condition (line : String) : Option String :=
  TRACK_CONDITION_MAP.lookup (pySlice line 51 53)

def sec_race_type (line : String) : String :=
  pyStrip (pySlice line 53 55)

def sec_race_condition (line : String) : String :=
  pyStrip (pySlice line 55 57)

def sec_grade (line : String) : Option String :=
  if pyStrip (pySlice line 61 62) = "1" then some "G1"
  else if pyStrip (pySlice line 61 62) = "2" then some "G2"
  else if pyStrip (pySlice line 61 62) = "3" then some "G3"
  else if pyStrip (pySlice line 61 62) = "5" then some "Listed"
  else none

def sec_race_name (line : String) : String :=
  pyStrip (pyRemoveChar '　' (pyStrip (pySlice line 62 87)))

def sec_num_horses (line : String) : Option Int :=
  safe_int (pySlice line 87 89) none

def sec_finish_position (line : String) : Option Int :=
  safe_int (pySlice line 93 95) none

def sec_abnormal_code (line : String) : Option Int :=
  safe_int (pySlice line 95 96) none

def sec_finish_time (line : String) : Option ℚ :=
  pyTenths (safe_int (pySlice line 96 100) none)

def sec_weight_carried (line : String) : Option ℚ :=
  pyTenths (safe_int (pySlice line 100 103) none)

def sec_jockey_name (line : String) : String :=
  pyRemoveChar '　' (pyStrip (pySlice line 103 109))

def sec_trainer_name (line : String) : String :=
  pyRemoveChar '　' (pyStrip (pySlice line 109 115))

def sec_win_odds (line : String) : Option ℚ :=
  safe_float (pySlice line 115 121) none

def sec_win_popularity (line : String) : Option Int :=
  safe_int (pySlice line 121 123) none

def sec_idm (line : String) : Option ℚ :=
  safe_float (pySlice line 123 126) none

def sec_raw_score (line : String) : Option ℚ :=
  safe_float (pySlice line 126 129) none

def sec_track_bias (line : String) : Option ℚ :=
  safe_float (pySlice line 129 132) none

def sec_pace (line : String) : Option ℚ :=
  safe_float (pySlice line 132 135) none

def sec_late_start (line : String) : Option ℚ :=
  safe_float (pySlice line 135 138) none

def sec_position_fault (line : String) : Option ℚ :=
  safe_float (pySlice line 138 141) none

def sec_disadvantage (line : String) : Option ℚ :=
  safe_float (pySlice line 141 144) none

def sec_front_disadvantage (line : String) : Option ℚ :=
  safe_float (pySlice line 144 147) none

def sec_mid_disadvantage (line : String) : Option ℚ :=
  safe_float (pySlice line 147 150) none

def sec_back_disadvantage (line : String) : Option ℚ :=
  safe_float (pySlice line 150 153) none

def sec_race_score (line : String) : Option ℚ :=
  safe_float (pySlice line 153 156) none

def sec_course_position (line : String) : Option Int :=
  safe_int (pySlice line 156 157) none

def sec_improvement_code (line : String) : Option Int :=
  safe_int (pySlice line 157 158) none

def sec_class_code (line : String) : Option Int :=
  safe_int (pySlice line 158 160) none

def sec_body_code (line : String) : Option Int :=
  safe_int (pySlice line 160 161) none

def sec_condition_code (line : String) : Option Int :=
  safe_int (pySlice line 161 162) none

def sec_race_pace (line : String) : String :=
  if line.length > 163 then pyStrip (pySlice line 162 163) else ""

def sec_horse_pace (line : String) : String :=
  if line.length > 164 then pyStrip (pySlice line 163 164) else ""

def sec_ten_index (line : String) : Option ℚ :=
  if line.length > 169 then safe_float (pySlice line 164 169) none else none

def sec_agari_index (line : String) : Option ℚ :=
  if line.length > 174 then safe_float (pySlice line 169 174) none else none

def sec_pace_index (line : String) : Option ℚ :=
  if line.length > 179 then safe_float (pySlice line 174 179) none else none

def sec_race_pace_index (line : String) : Option ℚ :=
  if line.length > 184 then safe_float (pySlice line 179 184) none else none

def sec_winner_name (line : String) : String :=
  if line.length > 190 then pyRemoveChar '　' (pyStrip (pySlice line 184 190)) else ""

def sec_winner_time_diff (line : String) : Option ℚ :=
  pyTenths (if line.length > 193 then safe_int (pySlice line 190 193) none else none)

def sec_front_3f_time (line : String) : Option ℚ :=
  pyTenths (if line.length > 196 then safe_int (pySlice line 193 196) none else none)

def sec_last_3f_time (line : String) : Option ℚ :=
  pyTenths (if line.length > 199 then safe_int (pySlice line 196 199) none else none)

def sec_remarks (line : String) : String :=
  if line.length > 211 then pyStrip (pyRemoveChar '　' (pyStrip (pySlice line 199 211))) else ""

def sec_odds_10am_win (line : String) : Option ℚ :=
  if line.length ≥ 260 then
    (if line.length > 225 then safe_float (pySlice line 219 225) none else none)
  else none

def sec_odds_10am_place (line : String) : Option ℚ :=
  if line.length ≥ 260 then
    (if line.length > 231 then safe_float (pySlice line 225 231) none else none)
  else none

def sec_horse_weight (line : String) : Option Int :=
  if line.length ≥ 270 then safe_int (pySlice line 261 264) none else none

def sec_horse_weight_diff (line : String) : Option Int :=
  if line.length ≥ 270 then
    (if pyStrip (pySlice line 264 267) ≠ "" then
      safe_int (pyRemoveChar '+' (pyStrip (pySlice line 264 267))) none
     else none)
  else none

def sec_weather_code (line : String) : Option Int :=
  if line.length ≥ 270 then safe_int (pySlice line 267 268) none else none

def sec_course_code (line : String) : Option String :=
  if line.length ≥ 270 then
    (if line.length > 268 ∧ pyStrip (pySlice line 268 269) ≠ "" then
      some (pyStrip (pySlice line 268 269))
     else none)
  else none

def sec_race_running_style (line : String) : Option String :=
  if line.length ≥ 270 then
    (if line.length > 269 ∧ pyStrip (pySlice line 269 270) ≠ "" then
      some (pyStrip (pySlice line 269 270))
     else none)
  else none

/-- `JRDBParser.parse_sec_line`. No operation in its `try` block can
raise, so the decoder returns `none` exactly on lines shorter than 200
characters. -/
def parse_sec_line (created updated : String) (line : String) : Option SecRecord :=
  if line.length < 200 then none
  else
    some ⟨
      sec_race_id line, -- race_id
      sec_horse_number line, -- horse_number
      sec_horse_id line, -- horse_id
      sec_race_date line, -- race_date
      strOpt (sec_horse_name line), -- horse_name
      sec_distance line, -- distance
      sec_course_type line, -- course_type
      sec_direction line, -- direction
      sec_track_condition line, -- track_condition
      strOpt (sec_race_type line), -- race_type
      strOpt (sec_race_condition line), -- race_condition
      sec_grade line, -- grade
      strOpt (sec_race_name line), -- race_name
      sec_num_horses line, -- num_horses
      sec_finish_position line, -- finish_position
      sec_abnormal_code line, -- abnormal_code
      sec_finish_time line, -- finish_time
      sec_weight_carried line, -- weight_carried
      strOpt (sec_jockey_name line), -- jockey_name
      strOpt (sec_trainer_name line), -- trainer_name
      sec_win_odds line, -- win_odds
      sec_win_popularity line, -- win_popularity
      sec_idm line, -- idm
      sec_raw_score line, -- raw_score
      sec_track_bias line, -- track_bias
      sec_pace line, -- pace
      sec_late_start line, -- late_start
      sec_position_fault line, -- position_fault
      sec_disadvantage line, -- disadvantage
      sec_front_disadvantage line, -- front_disadvantage
      sec_mid_disadvantage line, -- mid_disadvantage
      sec_back_disadvantage line, -- back_disadvantage
      sec_race_score line, -- race_score
      sec_course_position line, -- course_position
      sec_improvement_code line, -- improvement_code
      sec_class_code line, -- class_code
      sec_body_code line, -- body_code
      sec_condition_code line, -- condition_code
      strOpt (sec_race_pace line), -- race_pace
      strOpt (sec_horse_pace line), -- horse_pace
      sec_ten_index line, -- ten_index
      sec_agari_index line, -- agari_index
      sec_pace_index line, -- pace_index
      sec_race_pace_index line, -- race_pace_index
      strOpt (sec_winner_name line), -- winner_name
      sec_winner_time_diff line, -- winner_time_diff
      sec_front_3f_time line, -- front_3f_time
      sec_last_3f_time line, -- last_3f_time
      strOpt (sec_remarks line), -- remarks
      none, -- place_odds
      sec_odds_10am_win line, -- odds_10am_win
      sec_odds_10am_place line, -- odds_10am_place
      none, -- corner_position_1
      none, -- corner_position_2
      none, -- corner_position_3
      none, -- corner_position_4
      none, -- front_3f_lead_diff
      none, -- last_3f_lead_diff
      none, -- jockey_code
      none, -- trainer_code
      sec_horse_weight line, -- horse_weight
      sec_horse_weight_diff line, -- horse_weight_diff
      sec_weather_code line, -- weather_code
      sec_course_code line, -- course_code
      sec_race_running_style line, -- race_running_style
      created, -- created_at
      updated -- updated_at
    ⟩

/-- Record produced by `JRDBParser.parse_ukc_line` (UKC horse-base
decoder); field order follows the Python dict literal. -/
structure UkcRecord where
  horse_id : String
  horse_name : Option String
  sex_code : Option Int
  sex : Option String
  coat_color_code : Option Int
  horse_symbol_code : Option Int
  sire_name : Option String
  dam_name : Option String
  broodmare_sire_name : Option String
  birth_date : Option String
  sire_birth_year : Option Int
  dam_birth_year : Option Int
  broodmare_sire_birth_year : Option Int
  owner_name : Option String
  owner_club_code : Option Int
  breeder_name : Option String
  birthplace : Option String
  deletion_flag : Option Int
  data_date : Option String
  sire_line_code : Option String
  broodmare_sire_line_code : Option String
  created_at : String
  updated_at : String
deriving DecidableEq

/-!
Each local of the Python `parse_ukc_line` becomes a top-level function
`ukc_<name>` of the line.
-/

def ukc_horse_id (line : String) : String :=
  pyStrip (pySlice line 0 8)

def ukc_horse_name (line : String) : String :=
  pyStrip (pyRemoveChar '　' (pyStrip (pySlice line 8 26)))

def ukc_sex_code (line : String) : Option Int :=
  safe_int (pySlice line 26 27) none

def ukc_sex (line : String) : Option String :=
  SEX_CODE_MAP.lookup (pySlice line 26 27)

def ukc_coat_color_code (line : String) : Option Int :=
  safe_int (pySlice line 27 29) none

def ukc_horse_symbol_code (line : String) : Option Int :=
  safe_int (pySlice line 29 31) none

def ukc_sire_name (line : String) : String :=
  pyStrip (pyRemoveChar '　' (pyStrip (pySlice line 31 49)))

def ukc_dam_name (line : String) : String :=
  pyStrip (pyRemoveChar '　' (pyStrip (pySlice line 49 67)))

def ukc_broodmare_sire_name (line : String) : String :=
  pyStrip (pyRemoveChar '　' (pyStrip (pySlice line 67 85)))

def ukc_birth_date (line : String) : Option String :=
  parse_date (pyStrip (pySlice line 85 93))

def ukc_sire_birth_year (line : String) : Option Int :=
  safe_int (pySlice line 93 97) none

def ukc_dam_birth_year (line : String) : Option Int :=
  safe_int (pySlice line 97 101) none

def ukc_broodmare_sire_birth_year (line : String) : Option Int :=
  safe_int (pySlice line 101 105) none

def ukc_owner_name (line : String) : String :=
  if line.length > 125 then pyStrip (pyRemoveChar '　' (pyStrip (pySlice line 105 125))) else ""

def ukc_owner_club_code (line : String) : Option Int :=
  if line.length > 127 then safe_int (pySlice line 125 127) none else none

def ukc_breeder_name (line : String) : String :=
  if line.length > 147 then pyStrip (pyRemoveChar '　' (pyStrip (pySlice line 127 147))) else ""

def ukc_birthplace (line : String) : String :=
  if line.length > 151 then pyStrip (pyRemoveChar '　' (pyStrip (pySlice line 147 151))) else ""

def ukc_deletion_flag (line : String) : Option Int :=
  if line.length > 152 then safe_int (pySlice line 151 152) none else none

def ukc_data_date (line : String) : Option String :=
  parse_date (if line.length > 160 then pyStrip (pySlice line 152 160) else "")

def ukc_sire_line_code (line : String) : String :=
  if line.length > 164 then pyStrip (pySlice line 160 164) else ""

def ukc_broodmare_sire_line_code (line : String) : String :=
  if line.length > 168 then pyStrip (pySlice line 164 168) else ""

/-- `JRDBParser.parse_ukc_line`. No operation in its `try` block can
raise, so the decoder returns `none` exactly on lines shorter than 160
characters. -/
def parse_ukc_line (created updated : String) (line : String) : Option UkcRecord :=
  if line.length < 160 then none
  else
    some ⟨
      ukc_horse_id line, -- horse_id
      strOpt (ukc_horse_name line), -- horse_name
      ukc_sex_code line, -- sex_code
      ukc_sex line, -- sex
      ukc_coat_color_code line, -- coat_color_code
      ukc_horse_symbol_code line, -- horse_symbol_code
      strOpt (ukc_sire_name line), -- sire_name
      strOpt (ukc_dam_name line), -- dam_name
      strOpt (ukc_broodmare_sire_name line), -- broodmare_sire_name
      ukc_birth_date line, -- birth_date
      ukc_sire_birth_year line, -- sire_birth_year
      ukc_dam_birth_year line, -- dam_birth_year
      ukc_broodmare_sire_birth_year line, -- broodmare_sire_birth_year
      strOpt (ukc_owner_name line), -- owner_name
      ukc_owner_club_code line, -- owner_club_code
      strOpt (ukc_breeder_name line), -- breeder_name
      strOpt (ukc_birthplace line), -- birthplace
      ukc_deletion_flag line, -- deletion_flag
      ukc_data_date line, -- data_date
      strOpt (ukc_sire_line_code line), -- sire_line_code
      strOpt (ukc_broodmare_sire_line_code line), -- broodmare_sire_line_code
      created, -- created_at
      updated -- updated_at
    ⟩

/-- Result of `JRDBParser.parse_zz9x4` (wins / seconds / thirds /
unplaced counts). -/
structure Zz9x4 where
  win : Option Int
  place : Option Int
  «show» : Option Int
  out : Option Int
deriving DecidableEq

/-- `JRDBParser.parse_zz9x4`: a repeated-group block of four 3-character
counts. Inputs shorter than 12 characters give four `None`s; otherwise
each 3-character sub-span is converted independently by `safe_int`. -/
def parse_zz9x4 (s : String) : Zz9x4 :=
  if s.length < 12 then ⟨none, none, none, none⟩
  else
    ⟨safe_int (pySlice s 0 3) none, safe_int (pySlice s 3 6) none,
     safe_int (pySlice s 6 9) none, safe_int (pySlice s 9 12) none⟩

/-- Record produced by `JRDBParser.parse_kka_line` (KKA extended
horse-statistics decoder): the race key, the horse number, a `race_date`
the decoder always leaves `None`, the four counts of each of the 23
repeated `ZZ9*4` groups (flattened as in the Python dict), six pedigree
statistics, and the two audit stamps. -/
structure KkaRecord where
  race_id : String
  horse_number : Option Int
  race_date : Option String
  jra_win : Option Int
  jra_place : Option Int
  jra_show : Option Int
  jra_out : Option Int
  exchange_win : Option Int
  exchange_place : Option Int
  exchange_show : Option Int
  exchange_out : Option Int
  other_win : Option Int
  other_place : Option Int
  other_show : Option Int
  other_out : Option Int
  surface_win : Option Int
  surface_place : Option Int
  surface_show : Option Int
  surface_out : Option Int
  surface_dist_win : Option Int
  surface_dist_place : Option Int
  surface_dist_show : Option Int
  surface_dist_out : Option Int
  track_dist_win : Option Int
  track_dist_place : Option Int
  track_dist_show : Option Int
  track_dist_out : Option Int
  rotation_win : Option Int
  rotation_place : Option Int
  rotation_show : Option Int
  rotation_out : Option Int
  direction_win : Option Int
  direction_place : Option Int
  direction_show : Option Int
  direction_out : Option Int
  jockey_win : Option Int
  jockey_place : Option Int
  jockey_show : Option Int
  jockey_out : Option Int
  good_win : Option Int
  good_place : Option Int
  good_show : Option Int
  good_out : Option Int
  slightly_heavy_win : Option Int
  slightly_heavy_place : Option Int
  slightly_heavy_show : Option Int
  slightly_heavy_out : Option Int
  heavy_win : Option Int
  heavy_place : Option Int
  heavy_show : Option Int
  heavy_out : Option Int
  slow_pace_win : Option Int
  slow_pace_place : Option Int
  slow_pace_show : Option Int
  slow_pace_out : Option Int
  medium_pace_win : Option Int
  medium_pace_place : Option Int
  medium_pace_show : Option Int
  medium_pace_out : Option Int
  high_pace_win : Option Int
  high_pace_place : Option Int
  high_pace_show : Option Int
  high_pace_out : Option Int
  season_win : Option Int
  season_place : Option Int
  season_show : Option Int
  season_out : Option Int
  bracket_win : Option Int
  bracket_place : Option Int
  bracket_show : Option Int
  bracket_out : Option Int
  jockey_dist_win : Option Int
  jockey_dist_place : Option Int
  jockey_dist_show : Option Int
  jockey_dist_out : Option Int
  jockey_track_dist_win : Option Int
  jockey_track_dist_place : Option Int
  jockey_track_dist_show : Option Int
  jockey_track_dist_out : Option Int
  jockey_trainer_win : Option Int
  jockey_trainer_place : Option Int
  jockey_trainer_show : Option Int
  jockey_trainer_out : Option Int
  jockey_owner_win : Option Int
  jockey_owner_place : Option Int
  jockey_owner_show : Option Int
  jockey_owner_out : Option Int
  jockey_blinker_win : Option Int
  jockey_blinker_place : Option Int
  jockey_blinker_show : Option Int
  jockey_blinker_out : Option Int
  trainer_owner_win : Option Int
  trainer_owner_place : Option Int
  trainer_owner_show : Option Int
  trainer_owner_out : Option Int
  sire_turf_place_rate : Option Int
  sire_dirt_place_rate : Option Int
  sire_avg_place_distance : Option Int
  broodmare_sire_turf_place_rate : Option Int
  broodmare_sire_dirt_place_rate : Option Int
  broodmare_sire_avg_place_distance : Option Int
  created_at : String
  updated_at : String
deriving DecidableEq

/-!
Each `ZZ9*4` group of the Python `parse_kka_line` becomes a top-level
function `kka_<name>` of the line, as do the pedigree statistics.
-/

def kka_jra (line : String) : Zz9x4 :=
  parse_zz9x4 (pySlice line 10 22)

def kka_exchange (line : String) : Zz9x4 :=
  parse_zz9x4 (pySlice line 22 34)

def kka_other (line : String) : Zz9x4 :=
  parse_zz9x4 (pySlice line 34 46)

def kka_surface (line : String) : Zz9x4 :=
  parse_zz9x4 (pySlice line 46 58)

def kka_surface_dist (line : String) : Zz9x4 :=
  parse_zz9x4 (pySlice line 58 70)

def kka_track_dist (line : String) : Zz9x4 :=
  parse_zz9x4 (pySlice line 70 82)

def kka_rotation (line : String) : Zz9x4 :=
  parse_zz9x4 (pySlice line 82 94)

def kka_direction (line : String) : Zz9x4 :=
  parse_zz9x4 (pySlice line 94 106)

def kka_jockey (line : String) : Zz9x4 :=
  parse_zz9x4 (pySlice line 106 118)

def kka_good (line : String) : Zz9x4 :=
  parse_zz9x4 (pySlice line 118 130)

def kka_slightly_heavy (line : String) : Zz9x4 :=
  parse_zz9x4 (pySlice line 130 142)

def kka_heavy (line : String) : Zz9x4 :=
  parse_zz9x4 (pySlice line 142 154)

def kka_slow_pace (line : String) : Zz9x4 :=
  parse_zz9x4 (pySlice line 154 166)

def kka_medium_pace (line : String) : Zz9x4 :=
  parse_zz9x4 (pySlice line 166 178)

def kka_high_pace (line : String) : Zz9x4 :=
  parse_zz9x4 (pySlice line 178 190)

def kka_season (line : String) : Zz9x4 :=
  parse_zz9x4 (pySlice line 190 202)

def kka_bracket (line : String) : Zz9x4 :=
  parse_zz9x4 (pySlice line 202 214)

def kka_jockey_dist (line : String) : Zz9x4 :=
  parse_zz9x4 (pySlice line 214 226)

def kka_jockey_track_dist (line : String) : Zz9x4 :=
  parse_zz9x4 (pySlice line 226 238)

def kka_jockey_trainer (line : String) : Zz9x4 :=
  parse_zz9x4 (pySlice line 238 250)

def kka_jockey_owner (line : String) : Zz9x4 :=
  parse_zz9x4 (pySlice line 250 262)

def kka_jockey_blinker (line : String) : Zz9x4 :=
  parse_zz9x4 (pySlice line 262 274)

def kka_trainer_owner (line : String) : Zz9x4 :=
  parse_zz9x4 (pySlice line 274 286)

def kka_sire_turf_place_rate (line : String) : Option Int :=
  safe_int (pySlice line 286 289) none

def kka_sire_dirt_place_rate (line : String) : Option Int :=
  safe_int (pySlice line 289 292) none

def kka_sire_avg_place_distance (line : String) : Option Int :=
  safe_int (pySlice line 292 296) none

def kka_broodmare_sire_turf_place_rate (line : String) : Option Int :=
  safe_int (pySlice line 296 299) none

def kka_broodmare_sire_dirt_place_rate (line : String) : Option Int :=
  safe_int (pySlice line 299 302) none

def kka_broodmare_sire_avg_place_distance (line : String) : Option Int :=
  safe_int (pySlice line 302 306) none

/-- `JRDBParser.parse_kka_line`. Besides the short-line return, the one
raising operation in its `try` block is `int(year_code)` on characters 2-4
of the stripped race key (the computed `year` is never stored; the call
matters only for its possible `ValueError`, modelled by the `match`). -/
def parse_kka_line (created updated : String) (line : String) : Option KkaRecord :=
  if line.length < 280 then none
  else
    match pyInt (pySlice (pyStrip (pySlice line 0 8)) 2 4) with
    | none => none
    | some _year =>
      some ⟨
      pyStrip (pySlice line 0 8), -- race_id
      safe_int (pySlice line 8 10) none, -- horse_number
      none, -- race_date
      (kka_jra line).win, -- jra_win
      (kka_jra line).place, -- jra_place
      (kka_jra line).«show», -- jra_show
      (kka_jra line).out, -- jra_out
      (kka_exchange line).win, -- exchange_win
      (kka_exchange line).place, -- exchange_place
      (kka_exchange line).«show», -- exchange_show
      (kka_exchange line).out, -- exchange_out
      (kka_other line).win, -- other_win
      (kka_other line).place, -- other_place
      (kka_other line).«show», -- other_show
      (kka_other line).out, -- other_out
      (kka_surface line).win, -- surface_win
      (kka_surface line).place, -- surface_place
      (kka_surface line).«show», -- surface_show
      (kka_surface line).out, -- surface_out
      (kka_surface_dist line).win, -- surface_dist_win
      (kka_surface_dist line).place, -- surface_dist_place
      (kka_surface_dist line).«show», -- surface_dist_show
      (kka_surface_dist line).out, -- surface_dist_out
      (kka_track_dist line).win, -- track_dist_win
      (kka_track_dist line).place, -- track_dist_place
      (kka_track_dist line).«show», -- track_dist_show
      (kka_track_dist line).out, -- track_dist_out
      (kka_rotation line).win, -- rotation_win
      (kka_rotation line).place, -- rotation_place
      (kka_rotation line).«show», -- rotation_show
      (kka_rotation line).out, -- rotation_out
      (kka_direction line).win, -- direction_win
      (kka_direction line).place, -- direction_place
      (kka_direction line).«show», -- direction_show
      (kka_direction line).out, -- direction_out
      (kka_jockey line).win, -- jockey_win
      (kka_jockey line).place, -- jockey_place
      (kka_jockey line).«show», -- jockey_show
      (kka_jockey line).out, -- jockey_out
      (kka_good line).win, -- good_win
      (kka_good line).place, -- good_place
      (kka_good line).«show», -- good_show
      (kka_good line).out, -- good_out
      (kka_slightly_heavy line).win, -- slightly_heavy_win
      (kka_slightly_heavy line).place, -- slightly_heavy_place
      (kka_slightly_heavy line).«show», -- slightly_heavy_show
      (kka_slightly_heavy line).out, -- slightly_heavy_out
      (kka_heavy line).win, -- heavy_win
      (kka_heavy line).place, -- heavy_place
      (kka_heavy line).«show», -- heavy_show
      (kka_heavy line).out, -- heavy_out
      (kka_slow_pace line).win, -- slow_pace_win
      (kka_slow_pace line).place, -- slow_pace_place
      (kka_slow_pace line).«show», -- slow_pace_show
      (kka_slow_pace line).out, -- slow_pace_out
      (kka_medium_pace line).win, -- medium_pace_win
      (kka_medium_pace line).place, -- medium_pace_place
      (kka_medium_pace line).«show», -- medium_pace_show
      (kka_medium_pace line).out, -- medium_pace_out
      (kka_high_pace line).win, -- high_pace_win
      (kka_high_pace line).place, -- high_pace_place
      (kka_high_pace line).«show», -- high_pace_show
      (kka_high_pace line).out, -- high_pace_out
      (kka_season line).win, -- season_win
      (kka_season line).place, -- season_place
      (kka_season line).«show», -- season_show
      (kka_season line).out, -- season_out
      (kka_bracket line).win, -- bracket_win
      (kka_bracket line).place, -- bracket_place
      (kka_bracket line).«show», -- bracket_show
      (kka_bracket line).out, -- bracket_out
      (kka_jockey_dist line).win, -- jockey_dist_win
      (kka_jockey_dist line).place, -- jockey_dist_place
      (kka_jockey_dist line).«show», -- jockey_dist_show
      (kka_jockey_dist line).out, -- jockey_dist_out
      (kka_jockey_track_dist line).win, -- jockey_track_dist_win
      (kka_jockey_track_dist line).place, -- jockey_track_dist_place
      (kka_jockey_track_dist line).«show», -- jockey_track_dist_show
      (kka_jockey_track_dist line).out, -- jockey_track_dist_out
      (kka_jockey_trainer line).win, -- jockey_trainer_win
      (kka_jockey_trainer line).place, -- jockey_trainer_place
      (kka_jockey_trainer line).«show», -- jockey_trainer_show
      (kka_jockey_trainer line).out, -- jockey_trainer_out
      (kka_jockey_owner line).win, -- jockey_owner_win
      (kka_jockey_owner line).place, -- jockey_owner_place
      (kka_jockey_owner line).«show», -- jockey_owner_show
      (kka_jockey_owner line).out, -- jockey_owner_out
      (kka_jockey_blinker line).win, -- jockey_blinker_win
      (kka_jockey_blinker line).place, -- jockey_blinker_place
      (kka_jockey_blinker line).«show», -- jockey_blinker_show
      (kka_jockey_blinker line).out, -- jockey_blinker_out
      (kka_trainer_owner line).win, -- trainer_owner_win
      (kka_trainer_owner line).place, -- trainer_owner_place
      (kka_trainer_owner line).«show», -- trainer_owner_show
      (kka_trainer_owner line).out, -- trainer_owner_out
      kka_sire_turf_place_rate line, -- sire_turf_place_rate
      kka_sire_dirt_place_rate line, -- sire_dirt_place_rate
      kka_sire_avg_place_distance line, -- sire_avg_place_distance
      kka_broodmare_sire_turf_place_rate line, -- broodmare_sire_turf_place_rate
      kka_broodmare_sire_dirt_place_rate line, -- broodmare_sire_dirt_place_rate
      kka_broodmare_sire_avg_place_distance line, -- broodmare_sire_avg_place_distance
      created, -- created_at
      updated -- updated_at
    ⟩

/-- Record produced by `JRDBParser.parse_kaa_line` (KAA meeting-data
decoder); field order follows the Python dict literal. -/
structure KaaRecord where
  venue_id : String
  race_date : Option String
  venue_code : String
  venue_name : String
  year : Option Int
  kai : Option Int
  day : String
  region_code : Option Int
  day_of_week : Option String
  weather_code : Option Int
  turf_condition_code : Option Int
  turf_condition_inner : Option Int
  turf_condition_middle : Option Int
  turf_condition_outer : Option Int
  turf_bias : Option Int
  straight_bias_innermost : Option Int
  straight_bias_inner : Option Int
  straight_bias_middle : Option Int
  straight_bias_outer : Option Int
  straight_bias_outermost : Option Int
  dirt_condition_code : Option Int
  dirt_condition_inner : Option Int
  dirt_condition_middle : Option Int
  dirt_condition_outer : Option Int
  dirt_bias : Option Int
  data_category : Option Int
  created_at : String
  updated_at : String
deriving DecidableEq

/-!
Each local of the Python `parse_kaa_line` becomes a top-level function
`kaa_<name>` of the line. `kaa_day` is the local `day_hex`.
-/

def kaa_venue_code (line : String) : String :=
  pyStrip (pySlice line 0 2)

def kaa_year_code (line : String) : String :=
  pyStrip (pySlice line 2 4)

def kaa_kai (line : String) : Option Int :=
  safe_int (pySlice line 4 5) none

def kaa_day (line : String) : String :=
  pyStrip (pySlice line 5 6)

/-- The f-string `venue_id` (an optional `kai` interpolates as the text
None, as in Python). -/
def kaa_venue_id (line : String) : String :=
  kaa_venue_code line ++ kaa_year_code line ++ pyStrOfOptInt (kaa_kai line) ++ kaa_day line

/-- The year widening `year + 2000 if year <= 50 else year + 1900`,
applied only when `safe_int` produced a value. -/
def kaa_year (line : String) : Option Int :=
  match safe_int (kaa_year_code line) none with
  | none => none
  | some y => some (if y ≤ 50 then y + 2000 else y + 1900)

def kaa_race_date (line : String) : Option String :=
  parse_date (pySlice line 6 14)

def kaa_region_code (line : String) : Option Int :=
  safe_int (pySlice line 14 15) none

def kaa_day_of_week (line : String) : String :=
  pyStrip (pySlice line 15 16)

def kaa_venue_name (line : String) : String :=
  pyRemoveChar '　' (pyStrip (pySlice line 16 18))

def kaa_weather_code (line : String) : Option Int :=
  safe_int (pySlice line 18 19) none

def kaa_turf_condition_code (line : String) : Option Int :=
  safe_int (pySlice line 19 21) none

def kaa_turf_condition_inner (line : String) : Option Int :=
  safe_int (pySlice line 21 22) none

def kaa_turf_condition_middle (line : String) : Option Int :=
  safe_int (pySlice line 22 23) none

def kaa_turf_condition_outer (line : String) : Option Int :=
  safe_int (pySlice line 23 24) none

def kaa_turf_bias (line : String) : Option Int :=
  safe_int (pySlice line 24 27) none

def kaa_straight_bias_innermost (line : String) : Option Int :=
  safe_int (pySlice line 27 29) none

def kaa_straight_bias_inner (line : String) : Option Int :=
  safe_int (pySlice line 29 31) none

def kaa_straight_bias_middle (line : String) : Option Int :=
  safe_int (pySlice line 31 33) none

def kaa_straight_bias_outer (line : String) : Option Int :=
  safe_int (pySlice line 33 35) none

def kaa_straight_bias_outermost (line : String) : Option Int :=
  safe_int (pySlice line 35 37) none

def kaa_dirt_condition_code (line : String) : Option Int :=
  safe_int (pySlice line 37 39) none

def kaa_dirt_condition_inner (line : String) : Option Int :=
  safe_int (pySlice line 39 40) none

def kaa_dirt_condition_middle (line : String) : Option Int :=
  safe_int (pySlice line 40 41) none

def kaa_dirt_condition_outer (line : String) : Option Int :=
  safe_int (pySlice line 41 42) none

def kaa_dirt_bias (line : String) : Option Int :=
  safe_int (pySlice line 42 45) none

def kaa_data_category (line : String) : Option Int :=
  if line.length > 45 then safe_int (pySlice line 45 46) none else none

/-- `JRDBParser.parse_kaa_line`. No operation in its `try` block can
raise, so the decoder returns `none` exactly on lines shorter than 40
characters. -/
def parse_kaa_line (created updated : String) (line : String) : Option KaaRecord :=
  if line.length < 40 then none
  else
    some ⟨
      kaa_venue_id line, -- venue_id
      kaa_race_date line, -- race_date
      kaa_venue_code line, -- venue_code
      (if kaa_venue_name line ≠ "" then kaa_venue_name line
       else (VENUE_CODE_MAP.lookup (kaa_venue_code line)).getD ""), -- venue_name
      kaa_year line, -- year
      kaa_kai line, -- kai
      kaa_day line, -- day
      kaa_region_code line, -- region_code
      strOpt (kaa_day_of_week line), -- day_of_week
      kaa_weather_code line, -- weather_code
      kaa_turf_condition_code line, -- turf_condition_code
      kaa_turf_condition_inner line, -- turf_condition_inner
      kaa_turf_condition_middle line, -- turf_condition_middle
      kaa_turf_condition_outer line, -- turf_condition_outer
      kaa_turf_bias line, -- turf_bias
      kaa_straight_bias_innermost line, -- straight_bias_innermost
      kaa_straight_bias_inner line, -- straight_bias_inner
      kaa_straight_bias_middle line, -- straight_bias_middle
      kaa_straight_bias_outer line, -- straight_bias_outer
      kaa_straight_bias_outermost line, -- straight_bias_outermost
      kaa_dirt_condition_code line, -- dirt_condition_code
      kaa_dirt_condition_inner line, -- dirt_condition_inner
      kaa_dirt_condition_middle line, -- dirt_condition_middle
      kaa_dirt_condition_outer line, -- dirt_condition_outer
      kaa_dirt_bias line, -- dirt_bias
      kaa_data_category line, -- data_category
      created, -- created_at
      updated -- updated_at
    ⟩

/-- A parsed record of any of the dispatched formats (Python returns
heterogeneous dicts in one list; the embedding wraps each record type in
one constructor). -/
inductive JRDBRecord where
  | baa : BaaRecord → JRDBRecord
  | kyf : KyfRecord → JRDBRecord
  | sec : SecRecord → JRDBRecord
  | ukc : UkcRecord → JRDBRecord
  | kka : KkaRecord → JRDBRecord
  | kaa : KaaRecord → JRDBRecord
deriving DecidableEq

/-- The `parser_map` dict of `JRDBParser.parse_file`: format tag to line
decoder (each wrapped into the common record type). -/
def parser_map : List (String × (String → String → String → Option JRDBRecord)) :=
  [("BAA", fun c u l => (parse_baa_line c u l).map JRDBRecord.baa),
   ("BAB", fun c u l => (parse_baa_line c u l).map JRDBRecord.baa),
   ("BAC", fun c u l => (parse_baa_line c u l).map JRDBRecord.baa),
   ("KYF", fun c u l => (parse_kyf_line c u l).map JRDBRecord.kyf),
   ("KYG", fun c u l => (parse_kyf_line c u l).map JRDBRecord.kyf),
   ("KYH", fun c u l => (parse_kyf_line c u l).map JRDBRecord.kyf),
   ("SEC", fun c u l => (parse_sec_line c u l).map JRDBRecord.sec),
   ("UKC", fun c u l => (parse_ukc_line c u l).map JRDBRecord.ukc),
   ("KKA", fun c u l => (parse_kka_line c u l).map JRDBRecord.kka),
   ("KAA", fun c u l => (parse_kaa_line c u l).map JRDBRecord.kaa)]

/-- `JRDBParser.parse_file`: strip the file content, split on newlines,
look the format tag up in `parser_map` (unknown tags return the empty
list), and decode line by line, skipping lines that are blank after
stripping and dropping lines whose decoder returns `None`. The decoders
are total, so the `try`/`except` around each line never fires; every
returned dict is nonempty, so Python's truthiness test `if parsed:`
coincides with `isSome`. -/
def parse_file (created updated : String) (file_content : String) (data_type : String) : List JRDBRecord :=
  let lines := pySplitNL (pyStrip file_content)
  match parser_map.lookup (pyUpper data_type) with
  | none => []
  | some parser_func =>
    lines.filterMap (fun line =>
      if pyStrip line = "" then none
      else parser_func created updated line)

/-- A `BaaRecord` with the two audit stamps blanked (for comparing two
decodes of the same line up to the stamped processing time). -/
def stripTimesBaa (r : BaaRecord) : BaaRecord :=
  { r with created_at := "", updated_at := "" }

/-- A `KyfRecord` with the two audit stamps blanked. -/
def stripTimesKyf (r : KyfRecord) : KyfRecord :=
  { r with created_at := "", updated_at := "" }

/-- A `SecRecord` with the two audit stamps blanked. -/
def stripTimesSec (r : SecRecord) : SecRecord :=
  { r with created_at := "", updated_at := "" }

/-- An `UkcRecord` with the two audit stamps blanked. -/
def stripTimesUkc (r : UkcRecord) : UkcRecord :=
  { r with created_at := "", updated_at := "" }

/-- A `KkaRecord` with the two audit stamps blanked. -/
def stripTimesKka (r : KkaRecord) : KkaRecord :=
  { r with created_at := "", updated_at := "" }

/-- A `KaaRecord` with the two audit stamps blanked. -/
def stripTimesKaa (r : KaaRecord) : KaaRecord :=
  { r with created_at := "", updated_at := "" }

/-- A 90-character BAA line whose grade code (position 35) is the
unmapped-but-present code 4 and whose condition field (positions 29-31)
is the sentinel OP. -/
def c2BaaLine : String :=
  "01241101" ++ "20240101" ++ "1000" ++ "1600" ++ "1" ++ "1" ++ " " ++ "03" ++
    "OP" ++ "   " ++ "1" ++ "4" ++
    "                                                  " ++ "    "

/-- A 90-character line whose first 8 characters strip to a 7-character
race key. -/
def c3Line : String :=
  "0124110 " ++
    "XXXXXXXXXXXXXXXXXXXXXXXXXXXXXXXXXXXXXXXXXXXXXXXXXXXXXXXXXXXXXXXXXXXXXXXXXXXXXXXXXX"

/-- A file of one 90-character, non-blank line whose race key is
unparseable (so the line decoder drops it). -/
def c4Content : String :=
  "XXXXXXXXXXXXXXXXXXXXXXXXXXXXXXXXXXXXXXXXXXXXXXXXXXXXXXXXXXXXXXXXXXXXXXXXXXXXXXXXXXXXXXXXXX"

/-- A three-line file for the corrected record count: one good line, one
blank line, one short line. -/
def w4Content : String :=
  testBaaLine ++ "\n\n" ++ "SHORTLINE"

/-- A 90-character BAA line whose race key has a letter in the year span
(positions 2-4). -/
def c10Line : String :=
  "01X41234" ++
    "                                                                                  "

/-- A 200-character SEC test line with finish-time sub-field 0595. -/
def testSecLine : String :=
  "                                                                                                " ++
    "0595" ++
    "                                                                                                    "

/-- The record the BAA decoder produces for `c2BaaLine` (with stamps C
and U). -/
def c2BaaRec : BaaRecord :=
  ⟨"01241101", some "2024-01-01", "01", "札幌", 1, "", some "turf",
   some 1600, "right", "Open", "03", "", none, none, none,
   none, none, none, "C", "U"⟩

/-- The per-line step of `parse_file` once the dispatch map has produced
a decoder: skip lines that are blank after stripping, decode the rest. -/
def tagStep (decoder : String → String → String → Option JRDBRecord)
    (c u line : String) : Option JRDBRecord :=
  if pyStrip line = "" then none
  else decoder c u line

/-- The minimum line length of each dispatched format: the short-line
guard of its decoder (`< 90` for BAA/BAB/BAC, `< 170` for KYF/KYG/KYH,
`< 200` for SEC, `< 160` for UKC, `< 280` for KKA, `< 40` for KAA). -/
def formatMinLen (tag : String) : Nat :=
  if tag = "BAA" ∨ tag = "BAB" ∨ tag = "BAC" then 90
  else if tag = "KYF" ∨ tag = "KYG" ∨ tag = "KYH" then 170
  else if tag = "SEC" then 200
  else if tag = "UKC" then 160
  else if tag = "KKA" then 280
  else if tag = "KAA" then 40
  else 0

/-- The number of lines that are blank after stripping (the M of the
record-count property). -/
def countBlank : List String → Nat
  | [] => 0
  | l :: ls => (if pyStrip l = "" then 1 else 0) + countBlank ls

/-- The number of non-blank lines shorter than the format minimum (the K
of the record-count property). -/
def countShort (minLen : Nat) : List String → Nat
  | [] => 0
  | l :: ls => (if pyStrip l ≠ "" ∧ l.length < minLen then 1 else 0) + countShort minLen ls

/-!
Concrete sanity evaluations of the embedded definitions.
-/

example : pyInt " 24 " = some 24 := by decide
example : pyInt "+4" = some 4 := by decide
example : pyInt "-5" = some (-5) := by decide
example : pyInt "1_0" = some 10 := by decide
example : pyInt "1_" = none := by decide
example : pyInt "X4" = none := by decide
example : pyInt "" = none := by decide
example : pyFloatMantissa "19.9".data = some (199, 1) := by decide
example : pyFloatMantissa "1".data = some (1, 0) := by decide
example : pyFloatMantissa ".5".data = some (5, 1) := by decide
example : pyFloatMantissa "5.".data = some (5, 0) := by decide
example : pyFloatMantissa ".".data = none := by decide
example : pyFloatMantissa "1.2.3".data = none := by decide
example : pyFloatExp "+10".data = some 10 := by decide
example : pyFloat "abc" = none := by decide
example : pyFloat "" = none := by decide
example : pyFloat "1e" = none := by decide
example : pyUpper "zzz" = "ZZZ" := by decide
example : pySplitNL "a\n\nb" = ["a", "", "b"] := by decide
example : pySplitNL "" = [""] := by decide
example : pyStrip "  ab " = "ab" := by decide
example : pySlice "abcdef" 2 4 = "cd" := by decide
example : safe_int " 42 " none = some 42 := by decide
example : safe_int "000" none = some 0 := by decide
example : safe_int "" (some 7) = some 7 := by decide
example : safe_int "abc" none = none := by decide
example : parse_date "20240101" = some "2024-01-01" := by decide
example : parse_date "20240230" = none := by decide
example : parse_date "   " = none := by decide
example : parse_date "2024123" = some "2024-12-03" := by decide
example : (parse_race_id "06261101").toOption =
    some ⟨"06261101", "06", 2026, 1, 1, 1⟩ := by decide
example : (parse_race_id "01991101").toOption =
    some ⟨"01991101", "01", 1999, 1, 1, 1⟩ := by decide
example : (parse_race_id "0124110").toOption = none := by decide
example : (parse_race_id "01X41234").toOption = none := by decide
example : (parse_race_id "01 41234").toOption =
    some ⟨"01 41234", "01", 2004, 1, 2, 34⟩ := by decide
example : testBaaLine.length = 90 := by decide
example : parse_baa_line "C" "U" testBaaLine =
    some ⟨"06261101", some "2026-01-01", "06", "中山", 1, "", some "turf",
      some 1600, "right", "Open", "03", "", none, none, some 1,
      none, none, none, "C", "U"⟩ := by decide
example : searchNum "12 16XY".data = some ['1', '2'] := by decide
example : searchNum "16".data = some ['1'] := by decide
example : searchNum "abc".data = none := by decide
example : testKyfLine.length = 171 := by decide
example : (parse_kyf_line "C" "U" testKyfLine).map KyfRecord.horse_number =
    some (some 1) := by decide
example : (parse_kyf_line "C" "U" testKyfLine).map KyfRecord.horse_id =
    some "23107385" := by decide
example : (parse_kyf_line "C" "U" testKyfLine).map KyfRecord.apprentice_class =
    some (some 1) := by decide
example : (parse_kyf_line "C" "U" testKyfLine).map KyfRecord.blinker =
    some none := by decide
example : parse_kyf_line "C" "U" "short" = none := by decide
example : parse_zz9x4 "005003002010" = ⟨some 5, some 3, some 2, some 10⟩ := by decide
example : parse_zz9x4 "005A03002010" = ⟨some 5, none, some 2, some 10⟩ := by decide
example : parse_zz9x4 "00500300201" = ⟨none, none, none, none⟩ := by decide
example : parse_file "C" "U" "anything" "ZZZ" = [] := by decide
example : (parse_file "C" "U" (testBaaLine ++ "\n\n" ++ "SHORT") "baa").length = 1 := by decide
example : (parse_file "C" "U" testBaaLine "BAB").length = 1 := by decide
example : c2BaaLine.length = 90 := by decide
example : c3Line.length = 90 := by decide
example : c4Content.length = 90 := by decide
example : c10Line.length = 90 := by decide
example : testSecLine.length = 200 := by decide

/-- C9: decoding the same line twice with any of the per-format line
decoders yields field-for-field identical records except for the two
audit-timestamp fields `created_at` and `updated_at`, which are stamped
with the processing time (modelled as the decoders' two string
parameters) rather than parsed from the input. Equality is stated after
blanking those two fields; a line dropped in one decode is dropped in
both. -/
theorem C9_decode_deterministic_except_timestamps :
    ∀ line c1 u1 c2 u2,
      (parse_baa_line c1 u1 line).map stripTimesBaa =
        (parse_baa_line c2 u2 line).map stripTimesBaa ∧
      (parse_kyf_line c1 u1 line).map stripTimesKyf =
        (parse_kyf_line c2 u2 line).map stripTimesKyf ∧
      (parse_sec_line c1 u1 line).map stripTimesSec =
        (parse_sec_line c2 u2 line).map stripTimesSec ∧
      (parse_ukc_line c1 u1 line).map stripTimesUkc =
        (parse_ukc_line c2 u2 line).map stripTimesUkc ∧
      (parse_kka_line c1 u1 line).map stripTimesKka =
        (parse_kka_line c2 u2 line).map stripTimesKka ∧
      (parse_kaa_line c1 u1 line).map stripTimesKaa =
        (parse_kaa_line c2 u2 line).map stripTimesKaa := by
  intro line c1 u1 c2 u2
  refine ⟨?_, ?_, ?_, ?_, ?_, ?_⟩
  · unfold parse_baa_line
    split
    · rfl
    · rcases h : parse_race_id (baa_race_id line) with e | ri <;> rfl
  · unfold parse_kyf_line
    split <;> rfl
  · unfold parse_sec_line
    split <;> rfl
  · unfold parse_ukc_line
    split <;> rfl
  · unfold parse_kka_line
    split
    · rfl
    · rcases h : pyInt (pySlice (pyStrip (pySlice line 0 8)) 2 4) with _ | y <;> rfl
  · unfold parse_kaa_line
    split <;> rfl

/-- Inversion for `parse_race_id`: a successful decode determines the
stored year from the integer value of the 2-character year span by the
century window of the source. -/
theorem parse_race_id_ok_year (key : String) (info : RaceInfo)
    (hok : parse_race_id key = Except.ok info) :
    ∃ y, pyInt (pySlice key 2 4) = some y ∧
      info.year = if 0 ≤ y ∧ y ≤ 50 then y + 2000 else y + 1900 := by
  unfold parse_race_id at hok
  split at hok
  · exact Except.noConfusion hok
  · split at hok
    · rename_i year kai day race_num h1 h2 h3 h4
      cases hok
      exact ⟨year, h1, rfl⟩
    · exact Except.noConfusion hok

/-- C1: for every 8-character race key accepted by `parse_race_id`, the
two-digit year code is widened by the windowed rule (0-50 to 2000+value,
51-99 to 1900+value); in particular year code 24 gives 2024, 99 gives
1999, 50 gives 2050 and 51 gives 1951. -/
theorem C1_race_year_window :
    (∀ key info y, parse_race_id key = Except.ok info →
      pyInt (pySlice key 2 4) = some y →
      ((0 ≤ y ∧ y ≤ 50) → info.year = 2000 + y) ∧
      ((51 ≤ y ∧ y ≤ 99) → info.year = 1900 + y)) ∧
    (parse_race_id "01241101").toOption.map RaceInfo.year = some 2024 ∧
    (parse_race_id "01991101").toOption.map RaceInfo.year = some 1999 ∧
    (parse_race_id "01501101").toOption.map RaceInfo.year = some 2050 ∧
    (parse_race_id "01511101").toOption.map RaceInfo.year = some 1951 := by
  refine ⟨?_, by decide, by decide, by decide, by decide⟩
  intro key info y hok hy
  obtain ⟨y2, hy2, hyear⟩ := parse_race_id_ok_year key info hok
  rw [hy] at hy2
  cases hy2
  constructor
  · rintro ⟨h1, h2⟩
    rw [hyear, if_pos ⟨h1, h2⟩]
    omega
  · rintro ⟨h1, h2⟩
    rw [hyear, if_neg (by omega)]
    omega

/-- C1 witness: the year window evaluated on the concrete key 01241101
(year code 24, decoded year 2024). -/
theorem C1_race_year_window_witness :
    parse_race_id "01241101" = Except.ok ⟨"01241101", "01", 2024, 1, 1, 1⟩ ∧
    pyInt (pySlice "01241101" 2 4) = some 24 ∧
    (0 ≤ (24 : Int) ∧ (24 : Int) ≤ 50) ∧
    (⟨"01241101", "01", 2024, 1, 1, 1⟩ : RaceInfo).year = 2000 + 24 := by
  refine ⟨by rfl, by decide, by decide, ?_⟩
  exact (C1_race_year_window.1 "01241101" ⟨"01241101", "01", 2024, 1, 1, 1⟩ 24
    (by rfl) (by decide)).1 (by decide)

/-- C2 counterexample: the claim says the decoder falls back to the Open
label (or raw condition) only if the grade code is absent; but on a line
whose grade code is the present, unmapped code 4 with condition field OP,
the decoder still assigns Open. -/
theorem C2_race_class_counterexample :
    pyStrip (pySlice c2BaaLine 35 36) = "4" ∧
    pyStrip (pySlice c2BaaLine 29 31) = "OP" ∧
    (parse_baa_line "C" "U" c2BaaLine).map BaaRecord.race_class = some "Open" :=
  ⟨by decide, by decide, by decide⟩

/-- C2 (amended): for every decoded race-program line, `race_class`
follows the precedence: grade code 1/2/3/5 map to G1/G2/G3/Listed; for
any other grade code (absent or present-but-unmapped) the decoder falls
back to Open when the stripped race-condition field is OP, and otherwise
passes the raw condition string through unchanged. -/
theorem C2_race_class_precedence :
    ∀ created updated line r, parse_baa_line created updated line = some r →
      r.race_class =
        (if pyStrip (pySlice line 35 36) = "1" then "G1"
         else if pyStrip (pySlice line 35 36) = "2" then "G2"
         else if pyStrip (pySlice line 35 36) = "3" then "G3"
         else if pyStrip (pySlice line 35 36) = "5" then "Listed"
         else if pyStrip (pySlice line 29 31) = "OP" then "Open"
         else pyStrip (pySlice line 29 31)) := by
  intro c u line r h
  unfold parse_baa_line at h
  split at h
  · exact Option.noConfusion h
  · split at h
    · exact Option.noConfusion h
    · cases h
      rfl

/-- C2 witness: the amended precedence applied to the concrete line with
grade code 4 and condition OP. -/
theorem C2_race_class_precedence_witness :
    parse_baa_line "C" "U" c2BaaLine = some c2BaaRec ∧
    c2BaaRec.race_class =
      (if pyStrip (pySlice c2BaaLine 35 36) = "1" then "G1"
       else if pyStrip (pySlice c2BaaLine 35 36) = "2" then "G2"
       else if pyStrip (pySlice c2BaaLine 35 36) = "3" then "G3"
       else if pyStrip (pySlice c2BaaLine 35 36) = "5" then "Listed"
       else if pyStrip (pySlice c2BaaLine 29 31) = "OP" then "Open"
       else pyStrip (pySlice c2BaaLine 29 31)) :=
  ⟨by decide, C2_race_class_precedence "C" "U" c2BaaLine c2BaaRec (by decide)⟩

/-- For keys of the wrong length, `parse_race_id` raises the length
`ValueError` of the source. -/
theorem parse_race_id_len_error (key : String) (h : key.length ≠ 8) :
    parse_race_id key = Except.error ("Invalid race key length: " ++ key) := by
  unfold parse_race_id
  rw [if_pos h]

/-- C3: every race key whose length is not 8 makes `parse_race_id` raise
(no result is produced), and a line decoder embedding it such as
`parse_baa_line` catches the raise and returns null for the line (a
dropped line, not a propagated exception — the embedded decoder is total
by construction). -/
theorem C3_bad_key_dropped_line :
    (∀ race_key, race_key.length ≠ 8 → (parse_race_id race_key).toOption = none) ∧
    (∀ created updated line, 90 ≤ line.length →
      (pyStrip (pySlice line 0 8)).length ≠ 8 →
      parse_baa_line created updated line = none) := by
  constructor
  · intro k h
    rw [parse_race_id_len_error k h]
    rfl
  · intro c u line hlen hkey
    unfold parse_baa_line
    rw [if_neg (by omega), parse_race_id_len_error (baa_race_id line) hkey]

/-- C3 witness: the 7-character key 0124110 is rejected, and the
90-character line whose first 8 characters strip to that key is dropped
by the BAA decoder. -/
theorem C3_bad_key_dropped_line_witness :
    ("0124110" : String).length ≠ 8 ∧
    (parse_race_id "0124110").toOption = none ∧
    (90 : Nat) ≤ c3Line.length ∧
    (pyStrip (pySlice c3Line 0 8)).length ≠ 8 ∧
    parse_baa_line "C" "U" c3Line = none :=
  ⟨by decide, C3_bad_key_dropped_line.1 "0124110" (by decide), by decide, by decide,
   C3_bad_key_dropped_line.2 "C" "U" c3Line (by decide) (by decide)⟩

/-- C5: for a format tag with no matching decoder (such as ZZZ),
`parse_file` returns the empty list; more generally, any tag whose
uppercased form is not a key of the dispatch map yields the empty list.
The embedded `parse_file` is a total function for every string input, so
decoding never raises past this boundary. -/
theorem C5_unknown_format_empty :
    (∀ created updated content, parse_file created updated content "ZZZ" = []) ∧
    (∀ created updated content data_type,
      parser_map.lookup (pyUpper data_type) = none →
      parse_file created updated content data_type = []) := by
  constructor
  · intro c u content
    rfl
  · intro c u content dt h
    unfold parse_file
    rw [h]

/-- C5 witness: the tag OZ (mentioned in the module header but absent
from the dispatch map) has no decoder, and `parse_file` returns the empty
list on it. -/
theorem C5_unknown_format_empty_witness :
    parser_map.lookup (pyUpper "OZ") = none ∧
    parse_file "C" "U" "0124110120240101" "OZ" = [] :=
  ⟨by rfl, C5_unknown_format_empty.2 "C" "U" "0124110120240101" "OZ" (by rfl)⟩

/-- C7: `parse_zz9x4` on inputs shorter than 12 characters gives four
null counts; the well-formed block 005003002010 gives win=5, place=3,
show=2, out=10; on inputs of length at least 12 each 3-character sub-span
is converted independently by `safe_int`, so a malformed sub-span (the
A03 in 005A03002010) nulls only its own count. -/
theorem C7_zz9x4_groups :
    (∀ s, s.length < 12 → parse_zz9x4 s = ⟨none, none, none, none⟩) ∧
    parse_zz9x4 "005003002010" = ⟨some 5, some 3, some 2, some 10⟩ ∧
    (∀ s, 12 ≤ s.length →
      parse_zz9x4 s =
        ⟨safe_int (pySlice s 0 3) none, safe_int (pySlice s 3 6) none,
         safe_int (pySlice s 6 9) none, safe_int (pySlice s 9 12) none⟩) ∧
    parse_zz9x4 "005A03002010" = ⟨some 5, none, some 2, some 10⟩ := by
  refine ⟨?_, by decide, ?_, by decide⟩
  · intro s h
    unfold parse_zz9x4
    rw [if_pos h]
  · intro s h
    unfold parse_zz9x4
    rw [if_neg (by omega)]

/-- C7 witness: the short-input case on an 11-character block and the
independent-sub-span case on the 12-character block with a malformed
second span. -/
theorem C7_zz9x4_groups_witness :
    ("00500300201" : String).length < 12 ∧
    parse_zz9x4 "00500300201" = ⟨none, none, none, none⟩ ∧
    (12 : Nat) ≤ ("005A03002010" : String).length ∧
    parse_zz9x4 "005A03002010" =
      ⟨safe_int (pySlice "005A03002010" 0 3) none,
       safe_int (pySlice "005A03002010" 3 6) none,
       safe_int (pySlice "005A03002010" 6 9) none,
       safe_int (pySlice "005A03002010" 9 12) none⟩ :=
  ⟨by decide, C7_zz9x4_groups.1 "00500300201" (by decide), by decide,
   C7_zz9x4_groups.2.2.1 "005A03002010" (by decide)⟩

/-- C8: the primitive converters `safe_int` and `safe_float` strip
whitespace and return the declared default on empty or whitespace-only
input, and return the default (rather than raising) when the stripped
text is not a valid integer (resp. float) literal; as total functions of
the embedding they never raise. Two concrete evaluations show the
stripping and a successful parse. -/
theorem C8_safe_converters_default :
    (∀ value d, pyStrip value = "" → safe_int value d = d) ∧
    (∀ value d, pyStrip value = "" → safe_float value d = d) ∧
    (∀ value d, pyInt (pyStrip value) = none → safe_int value d = d) ∧
    (∀ value d, pyFloat (pyStrip value) = none → safe_float value d = d) ∧
    safe_int " 42 " none = some 42 ∧
    safe_int "12a" none = none ∧
    safe_float "1..2" (some 7) = some 7 := by
  refine ⟨?_, ?_, ?_, ?_, by decide, by decide, by decide⟩
  · intro v d h
    unfold safe_int
    rw [if_pos h]
  · intro v d h
    unfold safe_float
    rw [if_pos h]
  · intro v d h
    show (if pyStrip v = "" then d
      else match pyInt (pyStrip v) with
        | some n => some n
        | none => d) = d
    rw [h]
    split <;> rfl
  · intro v d h
    show (if pyStrip v = "" then d
      else match pyFloat (pyStrip v) with
        | some q => some q
        | none => d) = d
    rw [h]
    split <;> rfl

/-- C8 witness: the defaults are returned on a whitespace-only input, an
invalid integer and an invalid float, with the hypotheses evaluated. -/
theorem C8_safe_converters_default_witness :
    pyStrip "  " = "" ∧ safe_int "  " (some 5) = some 5 ∧
    pyInt (pyStrip "9_") = none ∧ safe_int "9_" (some 3) = some 3 ∧
    pyFloat (pyStrip "1.2.3") = none ∧ safe_float "1.2.3" none = none :=
  ⟨by decide, C8_safe_converters_default.1 "  " (some 5) (by decide),
   by decide, C8_safe_converters_default.2.2.1 "9_" (some 3) (by decide),
   by decide, C8_safe_converters_default.2.2.2.1 "1.2.3" none (by decide)⟩

/-- C6: the tenths-scaling rule: the sub-field 550 decodes to 55.0 (the
raw integer divided by 10.0), while 000, blank, or unparseable content
decodes to null — and no input whatsoever decodes to 0.0. The rule is
then tied to the two cited parser fields: weight carried in the
horse-entry (KYF) decoder and finish time in the race-result (SEC)
decoder. -/
theorem C6_tenths_scaled_fields :
    (∀ v, pyTenths v ≠ some 0) ∧
    pyTenths (safe_int "550" none) = some 55 ∧
    pyTenths (safe_int "000" none) = none ∧
    pyTenths (safe_int "   " none) = none ∧
    pyTenths (safe_int "5X0" none) = none ∧
    (∀ created updated line, 170 ≤ line.length → 162 < line.length →
      (parse_kyf_line created updated line).map KyfRecord.weight_carried =
        some (pyTenths (safe_int (pySlice line 159 162) none))) ∧
    (∀ created updated line, 200 ≤ line.length →
      (parse_sec_line created updated line).map SecRecord.finish_time =
        some (pyTenths (safe_int (pySlice line 96 100) none))) := by
  refine ⟨?_, ?_, by decide, by decide, by decide, ?_, ?_⟩
  · intro v
    match v with
    | none => simp [pyTenths]
    | some n =>
      by_cases hn : n = 0
      · simp [pyTenths, hn]
      · simp only [pyTenths, if_pos hn, ne_eq, Option.some.injEq]
        intro hc
        rcases div_eq_zero_iff.mp hc with h0 | h0
        · exact hn (by exact_mod_cast h0)
        · norm_num at h0
  · have h : safe_int "550" none = some 550 := by decide
    rw [h]
    norm_num [pyTenths]
  · intro c u line h170 h162
    unfold parse_kyf_line
    rw [if_neg (by omega)]
    simp only [Option.map_some']
    show some (kyf_weight_carried line) = _
    unfold kyf_weight_carried
    rw [if_pos h162]
  · intro c u line h200
    unfold parse_sec_line
    rw [if_neg (by omega)]
    simp only [Option.map_some']
    rfl

/-- C6 witness: the scaling rule evaluated on the concrete KYF line (raw
550 at positions 159-162) and the concrete SEC line. -/
theorem C6_tenths_scaled_fields_witness :
    (170 : Nat) ≤ testKyfLine.length ∧ (162 : Nat) < testKyfLine.length ∧
    (parse_kyf_line "C" "U" testKyfLine).map KyfRecord.weight_carried =
      some (pyTenths (safe_int (pySlice testKyfLine 159 162) none)) ∧
    (200 : Nat) ≤ testSecLine.length ∧
    (parse_sec_line "C" "U" testSecLine).map SecRecord.finish_time =
      some (pyTenths (safe_int (pySlice testSecLine 96 100) none)) :=
  ⟨by decide, by decide,
   C6_tenths_scaled_fields.2.2.2.2.2.1 "C" "U" testKyfLine (by decide) (by decide),
   by decide,
   C6_tenths_scaled_fields.2.2.2.2.2.2 "C" "U" testSecLine (by decide)⟩

/-- C10 counterexample: the claim says every 8-character key with a
non-digit character in positions 2 through 7 makes `parse_race_id` raise;
but a space is a non-digit accepted by `int()` after stripping, so the
key with a space at position 2 decodes successfully. -/
theorem C10_nondigit_counterexample :
    ("01 41234" : String).length = 8 ∧
    pySlice "01 41234" 2 3 = " " ∧
    Char.isDigit ' ' = false ∧
    (parse_race_id "01 41234").toOption =
      some ⟨"01 41234", "01", 2004, 1, 2, 34⟩ :=
  ⟨by decide, by decide, by decide, by decide⟩

/-- C10 (amended): length 8 is necessary but not sufficient — for every
8-character race key one of whose numeric sub-fields (positions 2-4, 4-5,
5-6, 6-8) is rejected by the integer converter (for example a letter in
the span; whitespace or a sign may still be accepted), `parse_race_id`
raises from the integer conversion, and `parse_baa_line` on any
long-enough line whose first 8 characters strip to such a key catches
the raise and returns null for the line. -/
theorem C10_nondigit_key_dropped :
    ∀ key, key.length = 8 →
      (pyInt (pySlice key 2 4) = none ∨ pyInt (pySlice key 4 5) = none ∨
       pyInt (pySlice key 5 6) = none ∨ pyInt (pySlice key 6 8) = none) →
      (parse_race_id key).toOption = none ∧
      (∀ created updated line, 90 ≤ line.length →
        pyStrip (pySlice line 0 8) = key →
        parse_baa_line created updated line = none) := by
  intro key h8 hbad
  have herr : (parse_race_id key).toOption = none := by
    unfold parse_race_id
    rw [if_neg (by omega)]
    rcases ha : pyInt (pySlice key 2 4) with _ | a
    · rfl
    · rcases hb : pyInt (pySlice key 4 5) with _ | b
      · rfl
      · rcases hc : pyInt (pySlice key 5 6) with _ | c
        · rfl
        · rcases hd : pyInt (pySlice key 6 8) with _ | d
          · rfl
          · exfalso
            rcases hbad with h | h | h | h
            · rw [h] at ha; exact Option.noConfusion ha
            · rw [h] at hb; exact Option.noConfusion hb
            · rw [h] at hc; exact Option.noConfusion hc
            · rw [h] at hd; exact Option.noConfusion hd
  refine ⟨herr, ?_⟩
  intro c u line hlen hkey
  unfold parse_baa_line
  rw [if_neg (by omega)]
  have hkey2 : baa_race_id line = key := hkey
  rw [hkey2]
  rcases hpr : parse_race_id key with e | ri
  · rfl
  · rw [hpr] at herr
    exact Option.noConfusion herr

/-- C10 witness: the key with the letter X in the year span is rejected,
and the 90-character BAA line carrying it is dropped. -/
theorem C10_nondigit_key_dropped_witness :
    ("01X41234" : String).length = 8 ∧
    pyInt (pySlice "01X41234" 2 4) = none ∧
    (parse_race_id "01X41234").toOption = none ∧
    (90 : Nat) ≤ c10Line.length ∧
    pyStrip (pySlice c10Line 0 8) = "01X41234" ∧
    parse_baa_line "C" "U" c10Line = none := by
  refine ⟨by decide, by decide, ?_, by decide, by decide, ?_⟩
  · exact (C10_nondigit_key_dropped "01X41234" (by decide) (Or.inl (by decide))).1
  · exact (C10_nondigit_key_dropped "01X41234" (by decide) (Or.inl (by decide))).2
      "C" "U" c10Line (by decide) (by decide)

/-- Lines shorter than the BAA minimum of 90 characters decode to null. -/
theorem parse_baa_line_short (c u line : String) (h : line.length < 90) :
    parse_baa_line c u line = none := by
  unfold parse_baa_line
  rw [if_pos h]


/-- Lines shorter than the KYF minimum of 170 characters decode to null. -/
theorem parse_kyf_line_short (c u line : String) (h : line.length < 170) :
    parse_kyf_line c u line = none := by
  unfold parse_kyf_line
  rw [if_pos h]

/-- Lines shorter than the SEC minimum of 200 characters decode to null. -/
theorem parse_sec_line_short (c u line : String) (h : line.length < 200) :
    parse_sec_line c u line = none := by
  unfold parse_sec_line
  rw [if_pos h]

/-- Lines shorter than the UKC minimum of 160 characters decode to null. -/
theorem parse_ukc_line_short (c u line : String) (h : line.length < 160) :
    parse_ukc_line c u line = none := by
  unfold parse_ukc_line
  rw [if_pos h]

/-- Lines shorter than the KKA minimum of 280 characters decode to null. -/
theorem parse_kka_line_short (c u line : String) (h : line.length < 280) :
    parse_kka_line c u line = none := by
  unfold parse_kka_line
  rw [if_pos h]

/-- Lines shorter than the KAA minimum of 40 characters decode to null. -/
theorem parse_kaa_line_short (c u line : String) (h : line.length < 40) :
    parse_kaa_line c u line = none := by
  unfold parse_kaa_line
  rw [if_pos h]

/-- `parse_file` on any tag with a matching decoder is the blank-skipping
filter-map of that decoder over the split lines. -/
theorem parse_file_lookup (c u content data_type : String)
    (decoder : String → String → String → Option JRDBRecord)
    (h : parser_map.lookup (pyUpper data_type) = some decoder) :
    parse_file c u content data_type =
      (pySplitNL (pyStrip content)).filterMap (tagStep decoder c u) := by
  unfold parse_file
  rw [h]
  rfl

/-- Counting the per-line filter-map of any decoder that nulls short
lines: when every non-blank line of at least the minimum length decodes,
the records plus the blank lines plus the short lines partition the line
list. -/
theorem file_count_split
    (decoder : String → String → String → Option JRDBRecord) (c u : String)
    (minLen : Nat)
    (hshort : ∀ l : String, l.length < minLen → decoder c u l = none) :
    ∀ ls : List String,
      (∀ l ∈ ls, pyStrip l ≠ "" → minLen ≤ l.length → (decoder c u l).isSome) →
      (ls.filterMap (tagStep decoder c u)).length + countBlank ls + countShort minLen ls
        = ls.length := by
  intro ls
  induction ls with
  | nil => intro _; rfl
  | cons l ls ih =>
    intro h
    have hl := h l (List.mem_cons_self l ls)
    have ih2 := ih (fun x hx h1 h2 => h x (List.mem_cons_of_mem _ hx) h1 h2)
    rw [List.filterMap_cons]
    by_cases hb : pyStrip l = ""
    · have hstep : tagStep decoder c u l = none := by simp [tagStep, hb]
      rw [hstep]
      show (ls.filterMap (tagStep decoder c u)).length + countBlank (l :: ls)
          + countShort minLen (l :: ls) = ls.length + 1
      rw [show countBlank (l :: ls) = 1 + countBlank ls from by simp [countBlank, hb],
        show countShort minLen (l :: ls) = countShort minLen ls from by
          simp [countShort, hb]]
      omega
    · by_cases hs : l.length < minLen
      · have hstep : tagStep decoder c u l = none := by
          simp [tagStep, hb, hshort l hs]
        rw [hstep]
        show (ls.filterMap (tagStep decoder c u)).length + countBlank (l :: ls)
            + countShort minLen (l :: ls) = ls.length + 1
        rw [show countBlank (l :: ls) = countBlank ls from by simp [countBlank, hb],
          show countShort minLen (l :: ls) = 1 + countShort minLen ls from by
            simp [countShort, hb, hs]]
        omega
      · have hsome := hl hb (by omega)
        obtain ⟨r, hr⟩ := Option.isSome_iff_exists.mp hsome
        have hstep : tagStep decoder c u l = some r := by simp [tagStep, hb, hr]
        rw [hstep]
        show (ls.filterMap (tagStep decoder c u)).length + 1 + countBlank (l :: ls)
            + countShort minLen (l :: ls) = ls.length + 1
        rw [show countBlank (l :: ls) = countBlank ls from by simp [countBlank, hb],
          show countShort minLen (l :: ls) = countShort minLen ls from by
            simp [countShort, hb, hs]]
        omega


/-- Every decoder in the dispatch map nulls the lines shorter than its
format's minimum length: the per-format short-line guards, read off the
map entry by entry. -/
theorem lookup_short_none :
    ∀ (t : String) (decoder : String → String → String → Option JRDBRecord),
      parser_map.lookup t = some decoder →
      ∀ c u l, l.length < formatMinLen t → decoder c u l = none := by
  intro t decoder h c u l hlen
  simp only [parser_map, List.lookup] at h
  split at h
  · rename_i hbeq
    cases h
    have ht : t = "BAA" := eq_of_beq hbeq
    subst ht
    rw [show formatMinLen "BAA" = 90 from rfl] at hlen
    simp [parse_baa_line_short c u l hlen]
  · 
    split at h
    · rename_i hbeq
      cases h
      have ht : t = "BAB" := eq_of_beq hbeq
      subst ht
      rw [show formatMinLen "BAB" = 90 from rfl] at hlen
      simp [parse_baa_line_short c u l hlen]
    · 
      split at h
      · rename_i hbeq
        cases h
        have ht : t = "BAC" := eq_of_beq hbeq
        subst ht
        rw [show formatMinLen "BAC" = 90 from rfl] at hlen
        simp [parse_baa_line_short c u l hlen]
      · 
        split at h
        · rename_i hbeq
          cases h
          have ht : t = "KYF" := eq_of_beq hbeq
          subst ht
          rw [show formatMinLen "KYF" = 170 from rfl] at hlen
          simp [parse_kyf_line_short c u l hlen]
        · 
          split at h
          · rename_i hbeq
            cases h
            have ht : t = "KYG" := eq_of_beq hbeq
            subst ht
            rw [show formatMinLen "KYG" = 170 from rfl] at hlen
            simp [parse_kyf_line_short c u l hlen]
          · 
            split at h
            · rename_i hbeq
              cases h
              have ht : t = "KYH" := eq_of_beq hbeq
              subst ht
              rw [show formatMinLen "KYH" = 170 from rfl] at hlen
              simp [parse_kyf_line_short c u l hlen]
            · 
              split at h
              · rename_i hbeq
                cases h
                have ht : t = "SEC" := eq_of_beq hbeq
                subst ht
                rw [show formatMinLen "SEC" = 200 from rfl] at hlen
                simp [parse_sec_line_short c u l hlen]
              · 
                split at h
                · rename_i hbeq
                  cases h
                  have ht : t = "UKC" := eq_of_beq hbeq
                  subst ht
                  rw [show formatMinLen "UKC" = 160 from rfl] at hlen
                  simp [parse_ukc_line_short c u l hlen]
                · 
                  split at h
                  · rename_i hbeq
                    cases h
                    have ht : t = "KKA" := eq_of_beq hbeq
                    subst ht
                    rw [show formatMinLen "KKA" = 280 from rfl] at hlen
                    simp [parse_kka_line_short c u l hlen]
                  · 
                    split at h
                    · rename_i hbeq
                      cases h
                      have ht : t = "KAA" := eq_of_beq hbeq
                      subst ht
                      rw [show formatMinLen "KAA" = 40 from rfl] at hlen
                      simp [parse_kaa_line_short c u l hlen]
                    · exact Option.noConfusion h


/-- C4 counterexample: the claim promises exactly `N - M - K` records for
every file and format tag; but this one-line BAA file (N=1, no blanks
M=0, no short lines K=0) has a full-length line whose race key is
unparseable, so the decoder drops it and `parse_file` returns 0 records,
not 1. -/
theorem C4_record_count_counterexample :
    (pySplitNL (pyStrip c4Content)).length = 1 ∧
    countBlank (pySplitNL (pyStrip c4Content)) = 0 ∧
    countShort (formatMinLen (pyUpper "BAA")) (pySplitNL (pyStrip c4Content)) = 0 ∧
    (parse_file "C" "U" c4Content "BAA").length = 0 ∧
    (1 : Nat) - 0 - 0 ≠ 0 :=
  ⟨by decide, by decide, by decide, by decide, by decide⟩

/-- C4 (amended): for every file content and every format tag with a
matching decoder (any of the ten dispatched tags, in any letter case),
`parse_file` splits the content into lines and silently skips blank lines
without counting them as failures; provided every non-blank line of at
least the format's minimum length decodes successfully, a file of N lines
with M blank and K short lines yields exactly `N - M - K` records (each
short line yields zero records). The decode-success proviso is forced by
the counterexample: a full-length line can still be dropped when its
content does not decode (a bad race key for BAA, an unparseable year code
for KKA). -/
theorem C4_record_count :
    ∀ created updated content data_type decoder,
      parser_map.lookup (pyUpper data_type) = some decoder →
      (∀ l ∈ pySplitNL (pyStrip content), pyStrip l ≠ "" →
        formatMinLen (pyUpper data_type) ≤ l.length →
        (decoder created updated l).isSome) →
      (parse_file created updated content data_type).length =
        (pySplitNL (pyStrip content)).length
          - countBlank (pySplitNL (pyStrip content))
          - countShort (formatMinLen (pyUpper data_type))
              (pySplitNL (pyStrip content)) := by
  intro c u content dt decoder hf h
  have hshort := lookup_short_none (pyUpper dt) decoder hf c u
  have key := file_count_split decoder c u (formatMinLen (pyUpper dt)) hshort
    (pySplitNL (pyStrip content)) h
  rw [parse_file_lookup c u content dt decoder hf]
  omega

/-- C4 witness: the three-line file (one good line, one blank, one short)
under the lowercase tag baa (uppercased to the mapped BAA, minimum 90)
has N=3, M=1, K=1 and the decoder returns exactly one record. -/
theorem C4_record_count_witness :
    parser_map.lookup (pyUpper "baa") =
      some (fun c u l => (parse_baa_line c u l).map JRDBRecord.baa) ∧
    (parse_file "C" "U" w4Content "baa").length =
      (pySplitNL (pyStrip w4Content)).length
        - countBlank (pySplitNL (pyStrip w4Content))
        - countShort (formatMinLen (pyUpper "baa")) (pySplitNL (pyStrip w4Content)) ∧
    (pySplitNL (pyStrip w4Content)).length = 3 ∧
    countBlank (pySplitNL (pyStrip w4Content)) = 1 ∧
    countShort (formatMinLen (pyUpper "baa")) (pySplitNL (pyStrip w4Content)) = 1 ∧
    (parse_file "C" "U" w4Content "baa").length = 1 :=
  ⟨rfl,
   C4_record_count "C" "U" w4Content "baa"
     (fun c u l => (parse_baa_line c u l).map JRDBRecord.baa) rfl (by decide),
   by decide, by decide, by decide, by decide⟩
